import Mathlib

/-!
Verification of the create-image plugin core: a shallow embedding of the
provider fallback orchestrator (`src/provider-manager.ts`), the Nano Banana
style-reference generation pipeline (`src/nano-banana-generator.ts`, with the
resolution-aware `compositeToGrid` from the shipped build
`dist/style-reference-manager.js`, whose embedded generator is the version the
current `style-reference-manager.ts` imports against), and the style reference
manager (`src/style-reference-manager.ts`).

Conventions of the embedding:
* JavaScript optional values (`string | undefined`) become `Option String`;
  JavaScript truthiness on strings (empty string is falsy) is `jsTruthy`.
* The process-wide health cache (`Map<string, ProviderHealth>`) becomes an
  association list threaded through each operation; `cacheGet` / `cacheSet` /
  `cacheDelete` preserve the `Map` get/set/delete semantics.
* Wall-clock time (`Date.now()`) is an explicit `now : Nat` parameter.
* The spawned generation subprocess and the HTTPS fetch are external
  collaborators; they are modelled by explicit outcome oracles
  (`ExecOutcome`, `HttpAttempt`).
* Code that throws an uncaught exception is modelled by an `Option` result
  whose `none` case marks the throw.
* The filesystem is a value `FS` (files as a path-keyed association list plus
  a directory list) threaded through each operation.
-/

/-- JavaScript truthiness of an optional string: `undefined` and `""` are falsy. -/
def jsTruthy : Option String → Bool
  | none => false
  | some s => s ≠ ""

/-- JavaScript `a || b` for an optional string `a` and a string default `b`. -/
def jsOrStr (a : Option String) (b : String) : String :=
  match a with
  | some s => if s ≠ "" then s else b
  | none => b

/-- JavaScript `String.prototype.trim`: strip leading and trailing whitespace.
Implemented over the character list so the kernel can evaluate it. -/
def jsTrim (s : String) : String :=
  String.mk (((s.toList.dropWhile Char.isWhitespace).reverse.dropWhile Char.isWhitespace).reverse)

/-- JavaScript `String.prototype.endsWith`. -/
def jsEndsWith (s suffix : String) : Bool :=
  List.isSuffixOf suffix.toList s.toList

/-- The `Math.round(n / 1024)` for a nonnegative integer byte count `n`. -/
def roundKB (n : Nat) : Nat := (n + 512) / 1024

/-! ## Provider manager data model (`src/types.ts`) -/

/-- The `ProviderConfig` from `src/types.ts`. -/
structure ProviderConfig where
  name : String
  apiKey : Option String
  model : Option String
  project : Option String
  location : Option String
  priority : Int
  enabled : Bool
deriving Repr, DecidableEq

/-- The `GlobalConfig` from `src/types.ts` (the fields the provider manager reads). -/
structure GlobalConfig where
  defaultProvider : String
  providers : List ProviderConfig
  autoFallback : Bool
deriving Repr, DecidableEq

/-- The `ImageGenerationRequest` from `src/types.ts`. -/
structure ImageGenerationRequest where
  prompt : String
  template : Option String
  type : Option String
  outputPath : Option String
  provider : Option String
  model : Option String
  styleGridPath : Option String
deriving Repr, DecidableEq

/-- The `ImageGenerationResult` from `src/types.ts` (the fields the provider
manager writes). `fallbackUsed` stays `Option Bool`: the source only ever
assigns it on a fallback success, leaving it `undefined` otherwise. -/
structure ImageGenerationResult where
  success : Bool
  path : Option String
  provider : Option String
  model : Option String
  error : Option String
  fallbackUsed : Option Bool
deriving Repr, DecidableEq

/-- The `ProviderHealth` from `src/types.ts`. -/
structure ProviderHealth where
  provider : String
  healthy : Bool
  lastChecked : Nat
  error : Option String
deriving Repr, DecidableEq

/-- The `ProviderFallbackChain` from `src/types.ts`. -/
structure ProviderFallbackChain where
  primary : ProviderConfig
  fallbacks : List ProviderConfig
deriving Repr, DecidableEq

/-! ## Health cache (`Map<string, ProviderHealth>`) -/

/-- The health cache: an association list with `Map` get/set/delete semantics. -/
def HealthCache := List (String × ProviderHealth)

instance : DecidableEq HealthCache := inferInstanceAs (DecidableEq (List (String × ProviderHealth)))

/-- The `Map.prototype.get`. -/
def cacheGet (cache : HealthCache) (k : String) : Option ProviderHealth :=
  (List.find? (fun e => e.1 == k) cache).map (fun e => e.2)

/-- The `Map.prototype.set`: later entries for the same key shadow earlier ones. -/
def cacheSet (cache : HealthCache) (k : String) (v : ProviderHealth) : HealthCache :=
  (k, v) :: List.filter (fun e => ! (e.1 == k)) cache

/-- The `Map.prototype.delete`. -/
def cacheDelete (cache : HealthCache) (k : String) : HealthCache :=
  List.filter (fun e => ! (e.1 == k)) cache

/-! ## Provider manager operations (`src/provider-manager.ts`) -/

/-- The `healthCheckTTL` (5 minutes). -/
def healthCheckTTL : Nat := 300000

/-- The health record computed by `checkHealth` on a cache miss (lines
235-253 of `provider-manager.ts`): configuration-readiness validation only.
`envProject` is `process.env.GOOGLE_CLOUD_PROJECT`. -/
def computeHealth (now : Nat) (envProject : Option String) (p : ProviderConfig) :
    ProviderHealth :=
  if p.name == "vertexai" then
    if ¬ jsTruthy p.project ∧ ¬ jsTruthy envProject then
      { provider := p.name, healthy := false, lastChecked := now,
        error := some "GOOGLE_CLOUD_PROJECT not configured" }
    else
      { provider := p.name, healthy := true, lastChecked := now, error := none }
  else if ¬ jsTruthy p.apiKey then
    { provider := p.name, healthy := false, lastChecked := now,
      error := some "API key not configured" }
  else
    { provider := p.name, healthy := true, lastChecked := now, error := none }

/-- The `ProviderManager.checkHealth`: return a cached record younger than the TTL,
otherwise recompute and overwrite the cache entry. `Date.now()` is `now`. -/
def checkHealth (cache : HealthCache) (now : Nat) (envProject : Option String)
    (p : ProviderConfig) : ProviderHealth × HealthCache :=
  match cacheGet cache p.name with
  | some cached =>
    if now - cached.lastChecked < healthCheckTTL then
      (cached, cache)
    else
      let health := computeHealth now envProject p
      (health, cacheSet cache p.name health)
  | none =>
    let health := computeHealth now envProject p
    (health, cacheSet cache p.name health)

/-- The `ProviderManager.refreshHealth`: `null` when the provider name is not in
the configuration; otherwise evict the cache entry and re-check. -/
def refreshHealth (cache : HealthCache) (now : Nat) (envProject : Option String)
    (providerName : String) (config : GlobalConfig) :
    Option ProviderHealth × HealthCache :=
  match List.find? (fun p => p.name == providerName) config.providers with
  | none => (none, cache)
  | some provider =>
    let cache' := cacheDelete cache providerName
    let (h, cache'') := checkHealth cache' now envProject provider
    (some h, cache'')

/-- Outcome of spawning the external `scripts/generate.js` process: an exit
with a code and captured output streams, or a spawn error. -/
inductive ExecOutcome where
  | exit (code : Int) (stdout stderr : String)
  | spawnError (msg : String)
deriving Repr, DecidableEq

/-- The `ProviderManager.tryProvider`: health-gate the provider, then delegate to
the external process (modelled by the oracle `exec`). The returned cache
reflects the health check's update. -/
def tryProvider (cache : HealthCache) (now : Nat) (envProject : Option String)
    (exec : ProviderConfig → ExecOutcome) (provider : ProviderConfig)
    (request : ImageGenerationRequest) : ImageGenerationResult × HealthCache :=
  let (health, cache') := checkHealth cache now envProject provider
  if ¬ health.healthy then
    ({ success := false, path := none, provider := some provider.name,
       model := none,
       error := some ("Provider " ++ provider.name ++ " is unhealthy: "
         ++ (health.error.getD "undefined")),
       fallbackUsed := none }, cache')
  else
    let outputPath := jsOrStr request.outputPath ("image_" ++ toString now ++ ".png")
    match exec provider with
    | ExecOutcome.exit code stdout stderr =>
      if code = 0 then
        ({ success := true, path := some outputPath, provider := some provider.name,
           model := provider.model, error := none, fallbackUsed := none }, cache')
      else
        ({ success := false, path := none, provider := some provider.name,
           model := none,
           error := some (jsOrStr (some stderr) (jsOrStr (some stdout)
             ("Process exited with code " ++ toString code))),
           fallbackUsed := none }, cache')
    | ExecOutcome.spawnError msg =>
      ({ success := false, path := none, provider := some provider.name,
         model := none,
         error := some ("Failed to spawn process: " ++ msg),
         fallbackUsed := none }, cache')

/-- Stable insertion into a priority-sorted list: insert before the first
element of no smaller priority, so that equal priorities keep original order. -/
def sortInsert (p : ProviderConfig) : List ProviderConfig → List ProviderConfig
  | [] => [p]
  | q :: rest =>
    if p.priority ≤ q.priority then p :: q :: rest else q :: sortInsert p rest

/-- The stable `providers.sort((a, b) => a.priority - b.priority)` of
`buildFallbackChain`, as a stable insertion sort. -/
def sortByPriority : List ProviderConfig → List ProviderConfig
  | [] => []
  | p :: rest => sortInsert p (sortByPriority rest)

/-- Replace the first occurrence of `target` in the list by `updated`; value
level account of the in-place mutation `requestedProvider.model = ...`, which
writes through the alias into `config.providers`. -/
def replaceFirst (target updated : ProviderConfig) :
    List ProviderConfig → List ProviderConfig
  | [] => []
  | p :: rest =>
    if p == target then updated :: rest else p :: replaceFirst target updated rest

/-- The `ProviderManager.buildFallbackChain`. The second component of the result is
the global configuration as left behind by the call: the source mutates the
requested provider's `model` field in place (an alias into
`config.providers`), so the configuration can change. `none` models the
uncaught `TypeError` thrown at line 220 when the enabled-provider list is
empty and `primary` is `undefined`. -/
def buildFallbackChain (request : ImageGenerationRequest) (config : GlobalConfig) :
    Option (ProviderFallbackChain × GlobalConfig) :=
  let enabledProviders := sortByPriority (List.filter (fun p => p.enabled) config.providers)
  let viaRequest : Option (ProviderFallbackChain × GlobalConfig) :=
    if jsTruthy request.provider then
      let reqName := request.provider.getD ""
      match List.find? (fun p => p.name == reqName) enabledProviders with
      | some requestedProvider =>
        let requestedProvider' :=
          if jsTruthy request.model then
            { requestedProvider with model := request.model }
          else requestedProvider
        let config' := { config with
          providers := replaceFirst requestedProvider requestedProvider' config.providers }
        some ({ primary := requestedProvider',
                fallbacks := List.filter (fun p => ! (p.name == reqName)) enabledProviders },
              config')
      | none => none
    else none
  match viaRequest with
  | some r => some r
  | none =>
    match List.find? (fun p => p.name == config.defaultProvider) enabledProviders with
    | some primary =>
      some ({ primary := primary,
              fallbacks := List.filter (fun p => ! (p.name == primary.name)) enabledProviders },
            config)
    | none =>
      match enabledProviders with
      | [] => none
      | primary :: _ =>
        some ({ primary := primary,
                fallbacks := List.filter (fun p => ! (p.name == primary.name)) enabledProviders },
              config)

/-- The fallback loop of `generateWithFallback` (lines 54-62): try each
fallback in order; on the first success set `fallbackUsed` and stop. The
second argument is the most recent failed result. -/
def fallbackLoop (now : Nat) (envProject : Option String)
    (exec : ProviderConfig → ExecOutcome) (request : ImageGenerationRequest) :
    List ProviderConfig → ImageGenerationResult → HealthCache →
    ImageGenerationResult × HealthCache
  | [], last, cache => (last, cache)
  | p :: rest, _, cache =>
    let (r, cache') := tryProvider cache now envProject exec p request
    if r.success then
      ({ r with fallbackUsed := some true }, cache')
    else
      fallbackLoop now envProject exec request rest r cache'

/-- The `ProviderManager.generateWithFallback`. Returns the result together with
the configuration left behind (see `buildFallbackChain`) and the final health
cache; `none` models the uncaught `TypeError` from `buildFallbackChain`. -/
def generateWithFallback (request : ImageGenerationRequest) (config : GlobalConfig)
    (cache : HealthCache) (now : Nat) (envProject : Option String)
    (exec : ProviderConfig → ExecOutcome) :
    Option (ImageGenerationResult × GlobalConfig × HealthCache) :=
  match buildFallbackChain request config with
  | none => none
  | some (fallbackChain, config') =>
    let (result, cache₁) := tryProvider cache now envProject exec fallbackChain.primary request
    if result.success then
      some (result, config', cache₁)
    else
      let (afterLoop, cache₂) :=
        if config.autoFallback ∧ fallbackChain.fallbacks ≠ [] then
          fallbackLoop now envProject exec request fallbackChain.fallbacks result cache₁
        else (result, cache₁)
      if afterLoop.success then
        some (afterLoop, config', cache₂)
      else
        some ({ success := false, path := none, provider := none, model := none,
                error := some ("All providers failed. Last error: "
                  ++ (afterLoop.error.getD "undefined")),
                fallbackUsed := none }, config', cache₂)

/-! ## Nano Banana generator (`dist` build of `nano-banana-generator`) -/

/-- The `MAX_RETRIES`. -/
def MAX_RETRIES : Nat := 3

/-- The `RETRY_DELAY_MS`. -/
def RETRY_DELAY_MS : Nat := 2000

/-- The resolution enum `'2K' | '4K'`. -/
inductive Resolution where
  | twoK
  | fourK
deriving Repr, DecidableEq

/-- One entry of `RESOLUTION_CONFIG`. -/
structure ResolutionConfigEntry where
  tileSize : Nat
  gap : Nat
deriving Repr, DecidableEq

/-- The `RESOLUTION_CONFIG`: 2K uses 1024px tiles, 4K uses 2048px tiles, both with
an 8px gap. -/
def RESOLUTION_CONFIG : Resolution → ResolutionConfigEntry
  | Resolution.twoK => { tileSize := 1024, gap := 8 }
  | Resolution.fourK => { tileSize := 2048, gap := 8 }

/-- A sharp image buffer, abstracted to its decoded pixel dimensions; `valid`
records whether sharp can decode the bytes at all (a 0-byte placeholder from
`Buffer.alloc(0)` is not decodable). -/
structure Image where
  width : Nat
  height : Nat
  valid : Bool
deriving Repr, DecidableEq

/-- The `Buffer.alloc(0)`: the empty placeholder buffer. -/
def emptyBuffer : Image := { width := 0, height := 0, valid := false }

/-- The `sharp(img).resize(tileSize, tileSize, { fit: 'cover' })`, with the
surrounding `try`/`catch` that returns the input unresized when sharp throws
on an undecodable buffer. -/
def resizeCover (tileSize : Nat) (img : Image) : Image :=
  if img.valid then { width := tileSize, height := tileSize, valid := true } else img

/-- The `while (images.length < 4) images.push(images[0] || Buffer.alloc(0))`
padding loop; the loop body runs at most 4 times, here given as fuel. -/
def padLoop : Nat → List Image → List Image
  | 0, l => l
  | n + 1, l =>
    if l.length < 4 then padLoop n (l ++ [l.headD emptyBuffer]) else l

/-- Pad the image list to at least 4 entries by repeating the first image (or
the empty buffer when there is none). -/
def padTo4 (l : List Image) : List Image := padLoop 4 l

/-- Result of `compositeToGrid`: either a composited grid (canvas width and
height, and the resized tiles with their `left`/`top` placements) or, when
sharp is unavailable, the first input buffer passed through unmodified. -/
inductive CompositeResult where
  | grid (width height : Nat) (tiles : List (Image × Nat × Nat))
  | passthrough (img : Image)
deriving Repr, DecidableEq

/-- The `compositeToGrid(images, resolution)` from the shipped build: resolve the
resolution configuration, pad to four tiles, cover-resize each tile, and place
them on a `gridSize × gridSize` canvas at the four quadrant offsets.
`sharpAvailable` models whether the dynamic `import('sharp')` succeeds. -/
def compositeToGrid (images : List Image) (resolution : Resolution)
    (sharpAvailable : Bool) : CompositeResult :=
  let config := RESOLUTION_CONFIG resolution
  let tileSize := config.tileSize
  let gap := config.gap
  let gridSize := tileSize * 2 + gap
  if sharpAvailable then
    let resized := List.map (resizeCover tileSize) (List.take 4 (padTo4 images))
    CompositeResult.grid gridSize gridSize
      [(resized.getD 0 emptyBuffer, 0, 0),
       (resized.getD 1 emptyBuffer, tileSize + gap, 0),
       (resized.getD 2 emptyBuffer, 0, tileSize + gap),
       (resized.getD 3 emptyBuffer, tileSize + gap, tileSize + gap)]
  else
    CompositeResult.passthrough (images.headD emptyBuffer)

/-! ## Single-image generation (`generateSingleImage`) -/

/-- The `inlineData` of one content part of the Gemini response. -/
structure GeminiInlineData where
  data : String
deriving Repr, DecidableEq

/-- One content part of the Gemini response. -/
structure GeminiPart where
  inlineData : Option GeminiInlineData
deriving Repr, DecidableEq

/-- The `content` of one candidate of the Gemini response. -/
structure GeminiContent where
  parts : Option (List GeminiPart)
deriving Repr, DecidableEq

/-- One candidate of the Gemini response. -/
structure GeminiCandidate where
  content : Option GeminiContent
deriving Repr, DecidableEq

/-- The parsed JSON body of a successful Gemini response. -/
structure GeminiResponse where
  candidates : Option (List GeminiCandidate)
deriving Repr, DecidableEq

/-- The `result.candidates?.[0]?.content?.parts?.[0]?.inlineData?.data`. -/
def extractImageData (r : GeminiResponse) : Option String :=
  match r.candidates with
  | none => none
  | some cs =>
    match cs.head? with
    | none => none
    | some c =>
      match c.content with
      | none => none
      | some content =>
        match content.parts with
        | none => none
        | some parts =>
          match parts.head? with
          | none => none
          | some part => part.inlineData.map (fun d => d.data)

/-- Outcome of one `fetch` attempt inside `generateSingleImage`: an HTTP
non-success response (with status and body text), a thrown network error, or a
successful response with its parsed JSON body. -/
inductive HttpAttempt where
  | httpError (status : Nat) (text : String)
  | networkError (msg : String)
  | ok (response : GeminiResponse)
deriving Repr, DecidableEq

/-- Result of `generateSingleImage`. -/
structure SingleResult where
  success : Bool
  imageBase64 : Option String
  error : Option String
deriving Repr, DecidableEq

/-- The retry loop of `generateSingleImage`; `oracle` gives the outcome of the
`fetch` on each attempt number. The image payload gate is the source's
truthiness test `if (!imageData)`: an empty-string payload is a failure. The second component of the result collects
the backoff sleeps (`RETRY_DELAY_MS * 2 ^ (attempt - 1)`) in order. The fuel
argument equals `MAX_RETRIES - attempt + 1` and only bounds the recursion. -/
def generateSingleImageLoop (oracle : Nat → HttpAttempt) :
    Nat → Nat → String → List Nat → SingleResult × List Nat
  | 0, _, lastError, delays =>
    ({ success := false, imageBase64 := none, error := some lastError }, delays)
  | fuel + 1, attempt, _, delays =>
    match oracle attempt with
    | HttpAttempt.httpError status text =>
      let err := "HTTP " ++ toString status ++ ": " ++ text
      if attempt < MAX_RETRIES then
        generateSingleImageLoop oracle fuel (attempt + 1) err
          (delays ++ [RETRY_DELAY_MS * 2 ^ (attempt - 1)])
      else
        ({ success := false, imageBase64 := none, error := some err }, delays)
    | HttpAttempt.networkError msg =>
      if attempt < MAX_RETRIES then
        generateSingleImageLoop oracle fuel (attempt + 1) msg
          (delays ++ [RETRY_DELAY_MS * 2 ^ (attempt - 1)])
      else
        ({ success := false, imageBase64 := none, error := some msg }, delays)
    | HttpAttempt.ok response =>
      if ¬ jsTruthy (extractImageData response) then
        ({ success := false, imageBase64 := none,
           error := some "No image data in response" }, delays)
      else
        ({ success := true, imageBase64 := extractImageData response,
           error := none }, delays)

/-- The `generateSingleImage`: up to `MAX_RETRIES` attempts starting at attempt 1
with an initially empty `lastError`. -/
def generateSingleImage (oracle : Nat → HttpAttempt) : SingleResult × List Nat :=
  generateSingleImageLoop oracle MAX_RETRIES 1 "" []

/-! ## Filesystem model -/

/-- The filesystem: regular files as a path-keyed association list of contents
(image bytes abstracted to strings) plus the set of directories. -/
structure FS where
  files : List (String × String)
  dirs : List String
deriving Repr, DecidableEq

/-- The `path.join(a, b)` (no normalization: the joined names here contain no
`.`/`..` segments or separators needing cleanup). -/
def pathJoin (a b : String) : String := a ++ "/" ++ b

/-- The `fs.existsSync`. -/
def fsExists (fs : FS) (p : String) : Bool :=
  List.any fs.files (fun e => e.1 == p) || List.any fs.dirs (fun d => d == p)

/-- The `fs.readFileSync` of a regular file, `none` when absent. -/
def fsRead (fs : FS) (p : String) : Option String :=
  (List.find? (fun e => e.1 == p) fs.files).map (fun e => e.2)

/-- The `fs.writeFileSync`: create or silently overwrite. -/
def fsWrite (fs : FS) (p content : String) : FS :=
  { fs with files := (p, content) :: List.filter (fun e => ! (e.1 == p)) fs.files }

/-- The `fs.mkdirSync(p, { recursive: true })` (parents of the paths used here
already exist, so a single directory entry suffices). -/
def fsMkdir (fs : FS) (p : String) : FS :=
  { fs with dirs := p :: fs.dirs }

/-! ## Reference-grid pipeline (`generateStyleReferenceGrid`) -/

/-- The `getApiKey()`: `process.env.GOOGLE_API_KEY || process.env.GEMINI_API_KEY
|| null`, with JavaScript truthiness (an empty variable does not count). -/
def getApiKey (envGoogle envGemini : Option String) : Option String :=
  if jsTruthy envGoogle then envGoogle
  else if jsTruthy envGemini then envGemini
  else none

/-- The `GenerationOptions` of the shipped generator build. -/
structure GenerationOptions where
  resolution : Option Resolution
  description : String
  audience : Option String
  visualStyle : Option String
  referenceImageBase64 : Option String
  domainKnowledge : Option String
deriving Repr, DecidableEq

/-- The `GenerationResult` of the shipped generator build. -/
structure GenerationResult where
  success : Bool
  gridPath : Option String
  individualPaths : Option (List String)
  gridSizeKB : Option Nat
  generatedCount : Option Nat
  failedCount : Option Nat
  resolution : Option Resolution
  errors : Option (List String)
deriving Repr, DecidableEq

/-- State accumulated by the per-image loop of `generateStyleReferenceGrid`. -/
structure LoopOut where
  individualImages : List String
  individualPaths : List String
  errors : List String
  generatedCount : Nat
  fs : FS
deriving Repr, DecidableEq

/-- The `for (let i = 0; i < PROMPT_VARIATIONS.length; i++)` loop of
`generateStyleReferenceGrid`: each index consults the single-image oracle; a
success (a truthy `imageBase64` on a successful result) is persisted to
`{outputDir}/{baseName}-{i+1}.png` and recorded, a failure contributes an
`Image {i+1}: {error}` entry. The 1500 ms pacing sleep has no effect on the
state and is not modelled. -/
def gridLoop (oracle : Nat → SingleResult) (outputDir baseName : String) :
    List Nat → FS → LoopOut
  | [], fs =>
    { individualImages := [], individualPaths := [], errors := [],
      generatedCount := 0, fs := fs }
  | i :: rest, fs =>
    let result := oracle i
    if result.success && jsTruthy result.imageBase64 then
      let buffer := result.imageBase64.getD ""
      let indPath := pathJoin outputDir (baseName ++ "-" ++ toString (i + 1) ++ ".png")
      let out := gridLoop oracle outputDir baseName rest (fsWrite fs indPath buffer)
      { out with
        individualImages := buffer :: out.individualImages,
        individualPaths := indPath :: out.individualPaths,
        generatedCount := out.generatedCount + 1 }
    else
      let errMsg := "Image " ++ toString (i + 1) ++ ": " ++ result.error.getD "undefined"
      let out := gridLoop oracle outputDir baseName rest fs
      { out with errors := errMsg :: out.errors }

/-- Byte-level stand-in for the composite buffer produced by
`compositeToGrid`: the raster content is beyond the byte-string model, so the
buffer is represented by a tagged join of its inputs (sharp branch) or the
`images[0] || Buffer.alloc(0)` passthrough. The geometry of `compositeToGrid`
is modelled separately above. -/
def compositeToGridBuffer (images : List String) (_resolution : Resolution)
    (sharpAvailable : Bool) : String :=
  if sharpAvailable then "grid:" ++ String.intercalate "," images
  else images.headD ""

/-- The `generateStyleReferenceGrid(outputDir, baseName, options)` of the shipped
build. `envGoogle`/`envGemini` are the credential environment variables,
`oracle` gives the outcome of the i-th `generateSingleImage` call, and the
third component of the result records whether `compositeToGrid` was invoked. -/
def generateStyleReferenceGrid (envGoogle envGemini : Option String) (fs : FS)
    (outputDir baseName : String) (options : GenerationOptions)
    (oracle : Nat → SingleResult) (sharpAvailable : Bool) :
    GenerationResult × FS × Bool :=
  match getApiKey envGoogle envGemini with
  | none =>
    ({ success := false, gridPath := none, individualPaths := none,
       gridSizeKB := none, generatedCount := none, failedCount := none,
       resolution := none,
       errors := some ["No API key. Set GOOGLE_API_KEY or GEMINI_API_KEY."] },
     fs, false)
  | some _ =>
    let resolution := options.resolution.getD Resolution.twoK
    let fs₀ := if fsExists fs outputDir then fs else fsMkdir fs outputDir
    let out := gridLoop oracle outputDir baseName [0, 1, 2, 3] fs₀
    if out.individualImages.isEmpty then
      ({ success := false, gridPath := none, individualPaths := none,
         gridSizeKB := none, generatedCount := some 0, failedCount := some 4,
         resolution := some resolution, errors := some out.errors },
       out.fs, false)
    else
      let gridBuffer := compositeToGridBuffer out.individualImages resolution sharpAvailable
      let gridPath := pathJoin outputDir (baseName ++ ".png")
      let fs₂ := fsWrite out.fs gridPath gridBuffer
      ({ success := true, gridPath := some gridPath,
         individualPaths := some out.individualPaths,
         gridSizeKB := some (roundKB gridBuffer.length),
         generatedCount := some out.generatedCount,
         failedCount := some (4 - out.generatedCount),
         resolution := some resolution,
         errors := if out.errors.isEmpty then none else some out.errors },
       fs₂, true)

/-- The `isGenerationAvailable()`: availability flag with an optional reason. -/
def isGenerationAvailable (envGoogle envGemini : Option String) :
    Bool × Option String :=
  match getApiKey envGoogle envGemini with
  | none => (false, some "No API key. Set GOOGLE_API_KEY.")
  | some _ => (true, none)

/-! ## Style reference manager (`src/style-reference-manager.ts`) -/

/-- The `GenerateReferenceOptions`. -/
structure GenerateReferenceOptions where
  resolution : Option Resolution
  name : String
  description : Option String
  audience : Option String
  visualStyle : Option String
  refImages : Option (List String)
deriving Repr, DecidableEq

/-- Return type of `StyleReferenceManager.generateStyleReference`. -/
structure SRResult where
  success : Bool
  path : Option String
  individualPaths : Option (List String)
  gridSizeKB : Option Nat
  error : Option String
deriving Repr, DecidableEq

/-- The `StyleReferenceManager.getTemplateDir`: `none` models the thrown
`Template not found` error. -/
def getTemplateDir (templatesDir : String) (fs : FS) (templateName : String) :
    Option String :=
  let templateDir := pathJoin templatesDir templateName
  if fsExists fs templateDir then some templateDir else none

/-- The `StyleReferenceManager.getActiveReference`: read the template's
`.active-reference` marker, trimmed, with an empty marker reported as `null`.
The outer `Option` is the `Template not found` throw. -/
def getActiveReference (templatesDir : String) (fs : FS) (templateName : String) :
    Option (Option String) :=
  match getTemplateDir templatesDir fs templateName with
  | none => none
  | some templateDir =>
    let prefsPath := pathJoin templateDir ".active-reference"
    match fsRead fs prefsPath with
    | some content =>
      some (if jsTrim content = "" then none else some (jsTrim content))
    | none => some none

/-- The `StyleReferenceManager.setActiveReference`: verify the reference file
exists (retrying with a `.png` extension added), then write the
`.active-reference` marker. `none` models the two thrown errors. -/
def setActiveReference (templatesDir : String) (fs : FS)
    (templateName filename : String) : Option FS :=
  match getTemplateDir templatesDir fs templateName with
  | none => none
  | some templateDir =>
    let refsDir := pathJoin templateDir "style-references"
    let fullPath := pathJoin refsDir filename
    let filename' :=
      if fsExists fs fullPath then some filename
      else
        let withPng := if jsEndsWith filename ".png" then filename else filename ++ ".png"
        if fsExists fs (pathJoin refsDir withPng) then some withPng else none
    match filename' with
    | none => none
    | some f => some (fsWrite fs (pathJoin templateDir ".active-reference") f)

/-- The `StyleReferenceManager.generateStyleReference`: availability gate, ensure
the `style-references` directory, load the optional reference image and domain
knowledge, run the grid pipeline, and on success auto-set the new grid as the
active reference. `none` models an uncaught throw (`Template not found` or
`Style reference not found`). -/
def generateStyleReference (templatesDir : String) (fs : FS)
    (envGoogle envGemini : Option String) (oracle : Nat → SingleResult)
    (sharpAvailable : Bool) (templateName : String)
    (options : GenerateReferenceOptions) : Option (SRResult × FS) :=
  let availability := isGenerationAvailable envGoogle envGemini
  if availability.1 = false then
    some ({ success := false, path := none, individualPaths := none,
            gridSizeKB := none, error := availability.2 }, fs)
  else
    match getTemplateDir templatesDir fs templateName with
    | none => none
    | some templateDir =>
      let refsDir := pathJoin templateDir "style-references"
      let fs₀ := if fsExists fs refsDir then fs else fsMkdir fs refsDir
      let referenceImageBase64 : Option String :=
        match options.refImages with
        | some (refPath :: _) =>
          if fsExists fs₀ refPath then fsRead fs₀ refPath else none
        | _ => none
      let domainKnowledge : Option String :=
        fsRead fs₀ (pathJoin templateDir "domain-knowledge.txt")
      let generationOptions : GenerationOptions := {
        resolution := some (options.resolution.getD Resolution.twoK),
        description := jsOrStr options.description options.name,
        audience := options.audience,
        visualStyle := options.visualStyle,
        referenceImageBase64 := referenceImageBase64,
        domainKnowledge := domainKnowledge }
      let out := generateStyleReferenceGrid envGoogle envGemini fs₀ refsDir
        options.name generationOptions oracle sharpAvailable
      let result := out.1
      let fs₁ := out.2.1
      if result.success && result.gridPath.isSome then
        match setActiveReference templatesDir fs₁ templateName (options.name ++ ".png") with
        | none => none
        | some fs₂ =>
          some ({ success := true, path := result.gridPath,
                  individualPaths := result.individualPaths,
                  gridSizeKB := result.gridSizeKB, error := none }, fs₂)
      else
        some ({ success := false, path := none, individualPaths := none,
                gridSizeKB := none,
                error := some (jsOrStr
                  (some (String.intercalate "; " (result.errors.getD [])))
                  "Generation failed") }, fs₁)

/-! ## Shared helper lemmas -/

theorem jsOrStr_ne_empty (a : Option String) (b : String) (hb : b ≠ "") :
    jsOrStr a b ≠ "" := by
  unfold jsOrStr
  cases a with
  | none => exact hb
  | some s =>
    by_cases hs : s ≠ ""
    · simpa [hs] using hs
    · simpa [hs] using hb

theorem append_ne_empty_left (a b : String) (ha : a.length ≠ 0) : a ++ b ≠ "" := by
  intro h
  have hl := congrArg String.length h
  rw [String.length_append] at hl
  simp only [String.length_empty] at hl
  omega

theorem cacheGet_nil (k : String) : cacheGet [] k = none := rfl

theorem find?_key_filter_ne (c : List (String × ProviderHealth)) (k k' : String)
    (h : k ≠ k') :
    List.find? (fun e => e.1 == k) (List.filter (fun e => ! (e.1 == k')) c)
      = List.find? (fun e => e.1 == k) c := by
  induction c with
  | nil => rfl
  | cons e rest ih =>
    rw [List.filter_cons]
    by_cases he : e.1 = k'
    · have hek : (e.1 == k) = false := by
        simp [he]; exact fun hkk => h (hkk ▸ rfl)
      simp only [he, beq_self_eq_true, Bool.not_true, Bool.false_eq_true, if_false]
      rw [List.find?_cons_of_neg _ (by simp [hek]), ih]
    · have hne : (e.1 == k') = false := by simpa using he
      simp only [hne, Bool.not_false, if_true]
      by_cases hek : e.1 = k
      · rw [List.find?_cons_of_pos _ (by simp [hek]),
          List.find?_cons_of_pos _ (by simp [hek])]
      · rw [List.find?_cons_of_neg _ (by simp [hek]),
          List.find?_cons_of_neg _ (by simp [hek]), ih]

theorem cacheGet_cacheSet_ne (c : HealthCache) (k k' : String) (v : ProviderHealth)
    (h : k ≠ k') : cacheGet (cacheSet c k' v) k = cacheGet c k := by
  unfold cacheGet cacheSet
  rw [List.find?_cons_of_neg _ (by simp; exact fun hkk => h (hkk ▸ rfl)),
    find?_key_filter_ne c k k' h]

theorem cacheGet_cacheDelete_self (c : HealthCache) (k : String) :
    cacheGet (cacheDelete c k) k = none := by
  unfold cacheGet cacheDelete
  induction c with
  | nil => rfl
  | cons e rest ih =>
    rw [List.filter_cons]
    by_cases he : e.1 = k
    · simpa [he] using ih
    · have hne : (e.1 == k) = false := by simpa using he
      simp only [hne, Bool.not_false, if_true]
      rw [List.find?_cons_of_neg _ (by simp [hne])]
      exact ih

theorem checkHealth_cacheGet_other (c : HealthCache) (now : Nat)
    (envProject : Option String) (p : ProviderConfig) (k : String) (h : k ≠ p.name) :
    cacheGet (checkHealth c now envProject p).2 k = cacheGet c k := by
  unfold checkHealth
  cases hc : cacheGet c p.name with
  | none => exact cacheGet_cacheSet_ne c k p.name _ h
  | some cached =>
    by_cases ht : now - cached.lastChecked < healthCheckTTL
    · simp [ht]
    · simpa [ht] using cacheGet_cacheSet_ne c k p.name _ h

/-- A result of `tryProvider` never reports success via the fallback flag and
always points at the attempted provider. -/
theorem tryProvider_shape (cache : HealthCache) (now : Nat)
    (envProject : Option String) (exec : ProviderConfig → ExecOutcome)
    (p : ProviderConfig) (request : ImageGenerationRequest) :
    (tryProvider cache now envProject exec p request).1.fallbackUsed = none
    ∧ (tryProvider cache now envProject exec p request).1.provider = some p.name := by
  unfold tryProvider
  cases h : checkHealth cache now envProject p with
  | mk health cache' =>
    by_cases hh : health.healthy
    · cases he : exec p with
      | exit code stdout stderr =>
        by_cases h0 : code = 0 <;> simp [hh, h0]
      | spawnError msg => simp [hh]
    · simp [hh]

theorem tryProvider_cacheGet_other (cache : HealthCache) (now : Nat)
    (envProject : Option String) (exec : ProviderConfig → ExecOutcome)
    (p : ProviderConfig) (request : ImageGenerationRequest) (k : String)
    (h : k ≠ p.name) :
    cacheGet (tryProvider cache now envProject exec p request).2 k = cacheGet cache k := by
  unfold tryProvider
  have hch := checkHealth_cacheGet_other cache now envProject p k h
  cases hc : checkHealth cache now envProject p with
  | mk health cache' =>
    rw [hc] at hch
    by_cases hh : health.healthy
    · cases he : exec p with
      | exit code stdout stderr =>
        by_cases h0 : code = 0 <;> simpa [hh, h0] using hch
      | spawnError msg => simpa [hh] using hch
    · simpa [hh] using hch

/-! ## Claim C2: health cache TTL discipline -/

/-- Claim C2: a cached health record younger than 300000 ms is returned
unchanged with the cache untouched; an absent or stale record triggers
recomputation which overwrites the cache entry; and `refreshHealth` always
recomputes regardless of the entry's age, returning `null` exactly when the
named provider is not in the configuration. -/
theorem checkHealth_ttl_refreshHealth_spec (cache : HealthCache) (now : Nat)
    (envProject : Option String) (p : ProviderConfig) (h : ProviderHealth)
    (providerName : String) (config : GlobalConfig) :
    (cacheGet cache p.name = some h → now - h.lastChecked < healthCheckTTL →
      checkHealth cache now envProject p = (h, cache))
    ∧ (cacheGet cache p.name = none →
      checkHealth cache now envProject p =
        (computeHealth now envProject p, cacheSet cache p.name (computeHealth now envProject p)))
    ∧ (cacheGet cache p.name = some h → ¬ now - h.lastChecked < healthCheckTTL →
      checkHealth cache now envProject p =
        (computeHealth now envProject p, cacheSet cache p.name (computeHealth now envProject p)))
    ∧ ((refreshHealth cache now envProject providerName config).1 = none ↔
      List.find? (fun q => q.name == providerName) config.providers = none)
    ∧ (∀ q, List.find? (fun q' => q'.name == providerName) config.providers = some q →
      (refreshHealth cache now envProject providerName config).1 =
        some (computeHealth now envProject q)) := by
  refine ⟨?_, ?_, ?_, ?_, ?_⟩
  · intro h1 h2
    unfold checkHealth
    rw [h1]
    simp [h2]
  · intro h1
    unfold checkHealth
    rw [h1]
  · intro h1 h2
    unfold checkHealth
    rw [h1]
    simp [h2]
  · unfold refreshHealth
    cases hf : List.find? (fun q => q.name == providerName) config.providers with
    | none => simp
    | some q =>
      simp only []
      constructor
      · intro hcontra
        cases hch : checkHealth (cacheDelete cache providerName) now envProject q with
        | mk a b => rw [hch] at hcontra; simp at hcontra
      · intro hcontra; exact absurd hcontra (by simp)
  · intro q hq
    have hname : q.name = providerName := by
      have := List.find?_some hq
      simpa using this
    have hmiss : cacheGet (cacheDelete cache providerName) q.name = none := by
      rw [hname]; exact cacheGet_cacheDelete_self cache providerName
    unfold refreshHealth checkHealth
    rw [hq]
    dsimp only
    rw [hmiss]

/-- Concrete fixture: a gemini provider configuration. -/
def gemProvC : ProviderConfig :=
  { name := "gemini", apiKey := some "key-a", model := some "m0", project := none,
    location := none, priority := 1, enabled := true }

/-- Concrete fixture: an openrouter provider configuration. -/
def orProvC : ProviderConfig :=
  { name := "openrouter", apiKey := some "key-b", model := none, project := none,
    location := none, priority := 2, enabled := true }

/-- Concrete fixture: a two-provider configuration with auto-fallback. -/
def cfgC : GlobalConfig :=
  { defaultProvider := "gemini", providers := [gemProvC, orProvC], autoFallback := true }

/-- Concrete fixture: a plain request naming no provider. -/
def reqC : ImageGenerationRequest :=
  { prompt := "a court diagram", template := none, type := none, outputPath := none,
    provider := none, model := none, styleGridPath := none }

/-- Concrete fixture: a fresh healthy cache entry for gemini at time 0. -/
def cachedGem : ProviderHealth :=
  { provider := "gemini", healthy := true, lastChecked := 0, error := none }

/-- Witness for C2 at concrete inputs: a 100 ms old entry is served from the
cache, and `refreshHealth` recomputes the record for gemini. -/
theorem checkHealth_ttl_refreshHealth_spec_witness :
    checkHealth [("gemini", cachedGem)] 100 none gemProvC = (cachedGem, [("gemini", cachedGem)])
    ∧ (refreshHealth [("gemini", cachedGem)] 100 none "gemini" cfgC).1 =
      some (computeHealth 100 none gemProvC) := by
  constructor
  · exact (checkHealth_ttl_refreshHealth_spec [("gemini", cachedGem)] 100 none gemProvC
      cachedGem "gemini" cfgC).1 (by decide) (by decide)
  · exact (checkHealth_ttl_refreshHealth_spec [("gemini", cachedGem)] 100 none gemProvC
      cachedGem "gemini" cfgC).2.2.2.2 gemProvC (by decide)

/-! ## Claim C7: missing credentials fail fast -/

/-- Claim C7: with no credential resolvable from the environment,
`generateStyleReferenceGrid` returns a structured failure, consults the
single-image oracle for nothing (the result is fixed for every oracle, so no
network call is made), and leaves the filesystem untouched (no files and no
directories created). -/
theorem generateStyleReferenceGrid_no_api_key (envGoogle envGemini : Option String)
    (fs : FS) (outputDir baseName : String) (options : GenerationOptions)
    (oracle : Nat → SingleResult) (sharpAvailable : Bool)
    (hkey : getApiKey envGoogle envGemini = none) :
    generateStyleReferenceGrid envGoogle envGemini fs outputDir baseName options
      oracle sharpAvailable =
    ({ success := false, gridPath := none, individualPaths := none,
       gridSizeKB := none, generatedCount := none, failedCount := none,
       resolution := none,
       errors := some ["No API key. Set GOOGLE_API_KEY or GEMINI_API_KEY."] },
     fs, false) := by
  unfold generateStyleReferenceGrid
  rw [hkey]

/-- Witness for C7: empty environment (unset and empty-string variables). -/
theorem generateStyleReferenceGrid_no_api_key_witness :
    generateStyleReferenceGrid none (some "") { files := [], dirs := [] } "out" "ref"
      { resolution := none, description := "d", audience := none, visualStyle := none,
        referenceImageBase64 := none, domainKnowledge := none }
      (fun _ => { success := true, imageBase64 := some "IMG", error := none }) true =
    ({ success := false, gridPath := none, individualPaths := none,
       gridSizeKB := none, generatedCount := none, failedCount := none,
       resolution := none,
       errors := some ["No API key. Set GOOGLE_API_KEY or GEMINI_API_KEY."] },
     { files := [], dirs := [] }, false) :=
  generateStyleReferenceGrid_no_api_key none (some "") { files := [], dirs := [] }
    "out" "ref" _ _ true (by decide)

/-! ## Claim C8: the request-level model override mutates the configuration -/

/-- Concrete fixture: a request naming gemini with a model override. -/
def reqOverride : ImageGenerationRequest :=
  { prompt := "a court diagram", template := none, type := none, outputPath := none,
    provider := some "gemini", model := some "m1", styleGridPath := none }

/-- The configuration `buildFallbackChain` leaves behind for `reqOverride`:
the gemini entry's `model` has been overwritten in place. -/
def cfgCMutated : GlobalConfig :=
  { defaultProvider := "gemini",
    providers := [{ gemProvC with model := some "m1" }, orProvC],
    autoFallback := true }

/-- Claim C8 fails on the code: `buildFallbackChain` writes the request's
model override through the alias into `config.providers`, so the provider
entry of the global configuration is mutated and the override persists beyond
the request. Evaluated at the failing input. -/
theorem buildFallbackChain_mutates_config :
    buildFallbackChain reqOverride cfgC =
      some ({ primary := { gemProvC with model := some "m1" },
              fallbacks := [orProvC] }, cfgCMutated)
    ∧ cfgCMutated ≠ cfgC
    ∧ (Option.map (fun p => p.model)
        (List.find? (fun p => p.name == "gemini") cfgCMutated.providers)) = some (some "m1")
    ∧ (Option.map (fun p => p.model)
        (List.find? (fun p => p.name == "gemini") cfgC.providers)) = some (some "m0") := by
  refine ⟨by decide, by decide, by decide, by decide⟩

/-! ## Claim C9 counterexample: empty enabled-provider list crashes -/

/-- Concrete fixture: a configuration with no providers at all. -/
def cfgEmpty : GlobalConfig :=
  { defaultProvider := "gemini", providers := [], autoFallback := true }

/-- Counterexample to claim C9 as stated: with an empty enabled-provider list
`generateWithFallback` does not return a `GenerationResult` at all — the
chain construction reads `.name` of `undefined` and throws (modelled by
`none`). -/
theorem generateWithFallback_crashes_on_empty_config :
    generateWithFallback reqC cfgEmpty [] 0 none (fun _ => ExecOutcome.exit 0 "" "") =
      none := by decide

/-! ## Claim C3: composite grid geometry -/

theorem padLoop_length_ge (n : Nat) : ∀ l : List Image, 4 ≤ l.length + n →
    4 ≤ (padLoop n l).length := by
  induction n with
  | zero => intro l h; simpa using h
  | succ m ih =>
    intro l h
    unfold padLoop
    by_cases hl : l.length < 4
    · simp only [hl, if_true]
      exact ih (l ++ [l.headD emptyBuffer]) (by simp; omega)
    · simp only [hl, if_false]
      omega

theorem padLoop_mem (n : Nat) : ∀ (l : List Image), l ≠ [] →
    ∀ x ∈ padLoop n l, x ∈ l := by
  induction n with
  | zero => intro l _ x hx; simpa [padLoop] using hx
  | succ m ih =>
    intro l hl x hx
    unfold padLoop at hx
    by_cases hlen : l.length < 4
    · simp only [hlen, if_true] at hx
      have hne : l ++ [l.headD emptyBuffer] ≠ [] := by simp
      have := ih (l ++ [l.headD emptyBuffer]) hne x hx
      rcases List.mem_append.mp this with h1 | h1
      · exact h1
      · simp only [List.mem_singleton] at h1
        subst h1
        cases l with
        | nil => exact absurd rfl hl
        | cons a rest => simp [List.headD]
    · simpa [hlen] using hx

theorem list_getD_mem (l : List Image) (i : Nat) (d : Image) (h : i < l.length) :
    l.getD i d ∈ l := by
  induction l generalizing i with
  | nil => simp at h
  | cons a rest ih =>
    cases i with
    | zero => simp [List.getD_cons_zero]
    | succ j =>
      rw [List.getD_cons_succ]
      exact List.mem_cons_of_mem a (ih j (by simpa using h))

/-- Claim C3: for an input list of up to four image buffers, the sharp branch
of `compositeToGrid` produces a 2056 × 2056 composite at 2K and a 4104 × 4104
composite at 4K, with the four tiles placed at the quadrant offsets 1032
(= 1024 + 8) and 2056 (= 2048 + 8) respectively, and (for decodable,
non-empty input) every tile cover-resized to 1024 px resp. 2048 px square. -/
theorem compositeToGrid_dimensions (images : List Image)
    (hlen : images.length ≤ 4) :
    (∃ tiles, compositeToGrid images Resolution.twoK true =
        CompositeResult.grid 2056 2056 tiles
      ∧ List.map (fun t => (t.2.1, t.2.2)) tiles = [(0, 0), (1032, 0), (0, 1032), (1032, 1032)]
      ∧ (images ≠ [] → (∀ img ∈ images, img.valid = true) →
          ∀ t ∈ tiles, (t.1).width = 1024 ∧ (t.1).height = 1024))
    ∧ (∃ tiles, compositeToGrid images Resolution.fourK true =
        CompositeResult.grid 4104 4104 tiles
      ∧ List.map (fun t => (t.2.1, t.2.2)) tiles = [(0, 0), (2056, 0), (0, 2056), (2056, 2056)]
      ∧ (images ≠ [] → (∀ img ∈ images, img.valid = true) →
          ∀ t ∈ tiles, (t.1).width = 2048 ∧ (t.1).height = 2048)) := by
  have hpad4 : 4 ≤ (padTo4 images).length :=
    padLoop_length_ge 4 images (by omega)
  have htake : (List.take 4 (padTo4 images)).length = 4 := by
    simp [List.length_take]; omega
  have htile : ∀ (ts : Nat), images ≠ [] → (∀ img ∈ images, img.valid = true) →
      ∀ i, i < 4 →
      ((List.map (resizeCover ts) (List.take 4 (padTo4 images))).getD i emptyBuffer).width = ts
      ∧ ((List.map (resizeCover ts) (List.take 4 (padTo4 images))).getD i emptyBuffer).height = ts := by
    intro ts hne hvalid i hi
    have hlenm : i < (List.map (resizeCover ts) (List.take 4 (padTo4 images))).length := by
      rw [List.length_map, htake]; exact hi
    have hmem := list_getD_mem _ i emptyBuffer hlenm
    rcases List.mem_map.mp hmem with ⟨y, hy, hresz⟩
    have hy' : y ∈ padTo4 images := List.mem_of_mem_take hy
    have hyim : y ∈ images := padLoop_mem 4 images hne y hy'
    have hyv : y.valid = true := hvalid y hyim
    rw [← hresz]
    simp [resizeCover, hyv]
  constructor
  · refine ⟨_, rfl, rfl, ?_⟩
    intro hne hvalid t ht
    simp only [List.mem_cons, List.not_mem_nil, or_false] at ht
    rcases ht with h | h | h | h
    · subst h; exact htile 1024 hne hvalid 0 (by omega)
    · subst h; exact htile 1024 hne hvalid 1 (by omega)
    · subst h; exact htile 1024 hne hvalid 2 (by omega)
    · subst h; exact htile 1024 hne hvalid 3 (by omega)
  · refine ⟨_, rfl, rfl, ?_⟩
    intro hne hvalid t ht
    simp only [List.mem_cons, List.not_mem_nil, or_false] at ht
    rcases ht with h | h | h | h
    · subst h; exact htile 2048 hne hvalid 0 (by omega)
    · subst h; exact htile 2048 hne hvalid 1 (by omega)
    · subst h; exact htile 2048 hne hvalid 2 (by omega)
    · subst h; exact htile 2048 hne hvalid 3 (by omega)

/-- Witness for C3: a single 640 × 480 decodable buffer yields 2056 px and
4104 px square grids. -/
theorem compositeToGrid_dimensions_witness :
    (∃ tiles, compositeToGrid [{ width := 640, height := 480, valid := true }]
        Resolution.twoK true = CompositeResult.grid 2056 2056 tiles)
    ∧ (∃ tiles, compositeToGrid [{ width := 640, height := 480, valid := true }]
        Resolution.fourK true = CompositeResult.grid 4104 4104 tiles) := by
  obtain ⟨⟨t2, h2, -, -⟩, ⟨t4, h4, -, -⟩⟩ :=
    compositeToGrid_dimensions [{ width := 640, height := 480, valid := true }] (by decide)
  exact ⟨⟨t2, h2⟩, ⟨t4, h4⟩⟩

/-! ## Claim C4: single-image retry policy -/

/-- The `lastError` text a retryable attempt outcome leaves behind
(`HTTP {status}: {text}` for an HTTP non-success, the message for a thrown
network error); `none` for an HTTP-success response, which is never retried. -/
def failingErrText : HttpAttempt → Option String
  | HttpAttempt.httpError status text => some ("HTTP " ++ toString status ++ ": " ++ text)
  | HttpAttempt.networkError msg => some msg
  | HttpAttempt.ok _ => none

/-- Claim C4: `generateSingleImage` retries only on an HTTP non-success or a
network exception, makes at most 3 attempts sleeping 2000 ms then 4000 ms
before the retries, and returns the last observed error text after the final
attempt; an HTTP-success response lacking image data in the first candidate's
first content part — absent or the falsy empty string, per the source's
`if (!imageData)` — is returned immediately as a failure, with no further
retries, while a truthy payload is an immediate success. -/
theorem generateSingleImage_retry_policy (oracle : Nat → HttpAttempt) :
    ((failingErrText (oracle 1)).isSome → (failingErrText (oracle 2)).isSome →
      (failingErrText (oracle 3)).isSome →
      generateSingleImage oracle =
        ({ success := false, imageBase64 := none, error := failingErrText (oracle 3) },
         [2000, 4000]))
    ∧ (∀ response, (failingErrText (oracle 1)).isSome →
        oracle 2 = HttpAttempt.ok response →
        jsTruthy (extractImageData response) = false →
        generateSingleImage oracle =
          ({ success := false, imageBase64 := none,
             error := some "No image data in response" }, [2000]))
    ∧ (∀ response d, (failingErrText (oracle 1)).isSome →
        oracle 2 = HttpAttempt.ok response → extractImageData response = some d →
        ¬ d = "" →
        generateSingleImage oracle =
          ({ success := true, imageBase64 := some d, error := none }, [2000]))
    ∧ (∀ response, oracle 1 = HttpAttempt.ok response →
        jsTruthy (extractImageData response) = false →
        generateSingleImage oracle =
          ({ success := false, imageBase64 := none,
             error := some "No image data in response" }, [])) := by
  refine ⟨?_, ?_, ?_, ?_⟩
  · intro h1 h2 h3
    cases ho1 : oracle 1 <;> cases ho2 : oracle 2 <;> cases ho3 : oracle 3 <;>
      simp_all [generateSingleImage, generateSingleImageLoop, MAX_RETRIES,
        RETRY_DELAY_MS, failingErrText]
  · intro response h1 h2 hex
    cases ho1 : oracle 1 <;>
      simp_all [generateSingleImage, generateSingleImageLoop, MAX_RETRIES,
        RETRY_DELAY_MS, failingErrText]
  · intro response d h1 h2 hex hd
    have htruthy : jsTruthy (extractImageData response) = true := by
      rw [hex]
      simpa [jsTruthy] using hd
    cases ho1 : oracle 1 <;>
      simp_all [generateSingleImage, generateSingleImageLoop, MAX_RETRIES,
        RETRY_DELAY_MS, failingErrText]
  · intro response h1 hex
    simp_all [generateSingleImage, generateSingleImageLoop, MAX_RETRIES,
      RETRY_DELAY_MS, failingErrText]

/-- Concrete fixture: first attempt HTTP 500, second a network error, third
HTTP 503. -/
def oracleC4 : Nat → HttpAttempt := fun n =>
  if n = 1 then HttpAttempt.httpError 500 "server error"
  else if n = 2 then HttpAttempt.networkError "socket reset"
  else HttpAttempt.httpError 503 "busy"

/-- Witness for C4: three failing attempts sleep 2000 ms then 4000 ms and
surface the third attempt's error text. -/
theorem generateSingleImage_retry_policy_witness :
    generateSingleImage oracleC4 =
      ({ success := false, imageBase64 := none, error := failingErrText (oracleC4 3) },
       [2000, 4000]) :=
  (generateSingleImage_retry_policy oracleC4).1 (by decide) (by decide) (by decide)

/-! ## Claims C5/C6: pipeline failure accounting -/

/-- Claim C5: if all four image generation calls fail,
`generateStyleReferenceGrid` returns `success = false` with
`generatedCount = 0`, `failedCount = 4` and the four accumulated per-image
error strings, invokes no compositing, and writes no file (in particular no
grid file). -/
theorem generateStyleReferenceGrid_all_fail
    (envGoogle envGemini : Option String) (fs : FS) (outputDir baseName : String)
    (options : GenerationOptions) (oracle : Nat → SingleResult) (sharpAvailable : Bool)
    (hkey : getApiKey envGoogle envGemini ≠ none)
    (hfail : ∀ i, i < 4 → (oracle i).success = false) :
    (generateStyleReferenceGrid envGoogle envGemini fs outputDir baseName options
        oracle sharpAvailable).1 =
      { success := false, gridPath := none, individualPaths := none,
        gridSizeKB := none, generatedCount := some 0, failedCount := some 4,
        resolution := some (options.resolution.getD Resolution.twoK),
        errors := some
          ["Image 1: " ++ (oracle 0).error.getD "undefined",
           "Image 2: " ++ (oracle 1).error.getD "undefined",
           "Image 3: " ++ (oracle 2).error.getD "undefined",
           "Image 4: " ++ (oracle 3).error.getD "undefined"] }
    ∧ (generateStyleReferenceGrid envGoogle envGemini fs outputDir baseName options
        oracle sharpAvailable).2.2 = false
    ∧ ((generateStyleReferenceGrid envGoogle envGemini fs outputDir baseName options
        oracle sharpAvailable).2.1).files = fs.files := by
  obtain ⟨k, hk⟩ := Option.ne_none_iff_exists'.mp hkey
  have h0 := hfail 0 (by omega)
  have h1 := hfail 1 (by omega)
  have h2 := hfail 2 (by omega)
  have h3 := hfail 3 (by omega)
  have hfiles : (if fsExists fs outputDir then fs else fsMkdir fs outputDir).files = fs.files := by
    by_cases hex : fsExists fs outputDir <;> simp [hex, fsMkdir]
  have e1 : "Image " ++ toString 1 ++ ": " = "Image 1: " := by decide
  have e2 : "Image " ++ toString 2 ++ ": " = "Image 2: " := by decide
  have e3 : "Image " ++ toString 3 ++ ": " = "Image 3: " := by decide
  have e4 : "Image " ++ toString 4 ++ ": " = "Image 4: " := by decide
  unfold generateStyleReferenceGrid
  rw [hk]
  simp [gridLoop, h0, h1, h2, h3, hfiles, e1, e2, e3, e4, String.append_assoc]

/-- Witness for C5: all four calls fail with distinct error strings. -/
theorem generateStyleReferenceGrid_all_fail_witness :
    (generateStyleReferenceGrid (some "key") none { files := [], dirs := [] }
        "out" "ref"
        { resolution := none, description := "d", audience := none, visualStyle := none,
          referenceImageBase64 := none, domainKnowledge := none }
        (fun i => { success := false, imageBase64 := none,
                    error := some ("boom " ++ toString i) }) true).1 =
      { success := false, gridPath := none, individualPaths := none,
        gridSizeKB := none, generatedCount := some 0, failedCount := some 4,
        resolution := some Resolution.twoK,
        errors := some ["Image 1: boom 0", "Image 2: boom 1",
                        "Image 3: boom 2", "Image 4: boom 3"] } :=
  (generateStyleReferenceGrid_all_fail (some "key") none { files := [], dirs := [] }
    "out" "ref" _ _ true (by decide) (fun i _ => rfl)).1

theorem gridLoop_cons (oracle : Nat → SingleResult) (outputDir baseName : String)
    (i : Nat) (rest : List Nat) (fs : FS) :
    gridLoop oracle outputDir baseName (i :: rest) fs =
      if (oracle i).success && jsTruthy (oracle i).imageBase64 then
        let buffer := (oracle i).imageBase64.getD ""
        let indPath := pathJoin outputDir (baseName ++ "-" ++ toString (i + 1) ++ ".png")
        let out := gridLoop oracle outputDir baseName rest (fsWrite fs indPath buffer)
        { out with
          individualImages := buffer :: out.individualImages,
          individualPaths := indPath :: out.individualPaths,
          generatedCount := out.generatedCount + 1 }
      else
        let errMsg := "Image " ++ toString (i + 1) ++ ": " ++ (oracle i).error.getD "undefined"
        let out := gridLoop oracle outputDir baseName rest fs
        { out with errors := errMsg :: out.errors } := rfl

theorem gridLoop_spec (oracle : Nat → SingleResult) (outputDir baseName : String) :
    ∀ (idxs : List Nat) (fs : FS),
      (gridLoop oracle outputDir baseName idxs fs).individualPaths.length =
        List.countP (fun i => (oracle i).success && jsTruthy (oracle i).imageBase64) idxs
      ∧ (gridLoop oracle outputDir baseName idxs fs).errors.length =
        List.countP (fun i => !((oracle i).success && jsTruthy (oracle i).imageBase64)) idxs
      ∧ (gridLoop oracle outputDir baseName idxs fs).individualImages.length =
        (gridLoop oracle outputDir baseName idxs fs).individualPaths.length := by
  intro idxs
  induction idxs with
  | nil => intro fs; simp [gridLoop]
  | cons i rest ih =>
    intro fs
    by_cases hc : ((oracle i).success && jsTruthy (oracle i).imageBase64) = true
    · obtain ⟨ihp, ihe, ihi⟩ := ih (fsWrite fs
        (pathJoin outputDir (baseName ++ "-" ++ toString (i + 1) ++ ".png"))
        ((oracle i).imageBase64.getD ""))
      rw [gridLoop_cons, if_pos hc]
      refine ⟨?_, ?_, ?_⟩ <;> simp [List.countP_cons, ihp, ihe, ihi, hc] <;>
        simp_all [Bool.and_eq_true]
    · have hcf : ((oracle i).success && jsTruthy (oracle i).imageBase64) = false := by
        simpa using hc
      have hd : (oracle i).success = false ∨ jsTruthy (oracle i).imageBase64 = false := by
        rcases Bool.eq_false_or_eq_true (oracle i).success with h | h
        · exact Or.inr (by simpa [h] using hcf)
        · exact Or.inl h
      obtain ⟨ihp, ihe, ihi⟩ := ih fs
      rw [gridLoop_cons, if_neg (by simp [hcf])]
      refine ⟨?_, ?_, ?_⟩ <;> simp [List.countP_cons, ihp, ihe, ihi, hcf, hd]

theorem countP_add_countP_not (l : List Nat) (p : Nat → Bool) :
    List.countP p l + List.countP (fun a => !(p a)) l = l.length := by
  induction l with
  | nil => rfl
  | cons a rest ih =>
    by_cases h : p a = true <;> simp [List.countP_cons, h] <;> omega

/-- Claim C6: when between one and three of the four image calls fail (and
successful calls carry image data, as `generateSingleImage` guarantees), the
pipeline still reports overall success, `individualPaths` has one entry per
successful generation, and `errors` is non-empty with one entry per failure. -/
theorem generateStyleReferenceGrid_partial_failure
    (envGoogle envGemini : Option String) (fs : FS) (outputDir baseName : String)
    (options : GenerationOptions) (oracle : Nat → SingleResult) (sharpAvailable : Bool)
    (hkey : getApiKey envGoogle envGemini ≠ none)
    (himg : ∀ i, (oracle i).success = true → jsTruthy (oracle i).imageBase64 = true)
    (hf1 : 1 ≤ List.countP (fun i => !(oracle i).success) [0, 1, 2, 3])
    (hf3 : List.countP (fun i => !(oracle i).success) [0, 1, 2, 3] ≤ 3) :
    (generateStyleReferenceGrid envGoogle envGemini fs outputDir baseName options
        oracle sharpAvailable).1.success = true
    ∧ (∃ paths, (generateStyleReferenceGrid envGoogle envGemini fs outputDir baseName
          options oracle sharpAvailable).1.individualPaths = some paths
        ∧ paths.length = 4 - List.countP (fun i => !(oracle i).success) [0, 1, 2, 3])
    ∧ (∃ es, (generateStyleReferenceGrid envGoogle envGemini fs outputDir baseName
          options oracle sharpAvailable).1.errors = some es
        ∧ es ≠ []
        ∧ es.length = List.countP (fun i => !(oracle i).success) [0, 1, 2, 3]) := by
  obtain ⟨k, hk⟩ := Option.ne_none_iff_exists'.mp hkey
  have hpt : ∀ i ∈ [0, 1, 2, 3],
      ((oracle i).success && jsTruthy (oracle i).imageBase64) = (oracle i).success := by
    intro i _
    rcases Bool.eq_false_or_eq_true (oracle i).success with h | h
    · simp [h, himg i h]
    · simp [h]
  obtain ⟨hp, he, hi⟩ := gridLoop_spec oracle outputDir baseName [0, 1, 2, 3]
    (if fsExists fs outputDir then fs else fsMkdir fs outputDir)
  have hcount1 : List.countP
        (fun i => (oracle i).success && jsTruthy (oracle i).imageBase64) [0, 1, 2, 3]
      = List.countP (fun i => (oracle i).success) [0, 1, 2, 3] :=
    List.countP_congr (fun x hx => by rw [hpt x hx])
  have hcount2 : List.countP
        (fun i => !((oracle i).success && jsTruthy (oracle i).imageBase64)) [0, 1, 2, 3]
      = List.countP (fun i => !(oracle i).success) [0, 1, 2, 3] :=
    List.countP_congr (fun x hx => by rw [hpt x hx])
  have htot := countP_add_countP_not [0, 1, 2, 3] (fun i => (oracle i).success)
  simp only [List.length_cons, List.length_nil] at htot
  have himgs_len : 1 ≤ (gridLoop oracle outputDir baseName [0, 1, 2, 3]
      (if fsExists fs outputDir then fs else fsMkdir fs outputDir)).individualImages.length := by
    rw [hi, hp, hcount1]; omega
  have hne : (gridLoop oracle outputDir baseName [0, 1, 2, 3]
      (if fsExists fs outputDir then fs else fsMkdir fs outputDir)).individualImages.isEmpty
        = false := by
    cases hcase : (gridLoop oracle outputDir baseName [0, 1, 2, 3]
        (if fsExists fs outputDir then fs else fsMkdir fs outputDir)).individualImages with
    | nil => rw [hcase] at himgs_len; simp at himgs_len
    | cons a l => rfl
  have herr_len : 1 ≤ (gridLoop oracle outputDir baseName [0, 1, 2, 3]
      (if fsExists fs outputDir then fs else fsMkdir fs outputDir)).errors.length := by
    rw [he, hcount2]; omega
  have hene : (gridLoop oracle outputDir baseName [0, 1, 2, 3]
      (if fsExists fs outputDir then fs else fsMkdir fs outputDir)).errors.isEmpty = false := by
    cases hcase : (gridLoop oracle outputDir baseName [0, 1, 2, 3]
        (if fsExists fs outputDir then fs else fsMkdir fs outputDir)).errors with
    | nil => rw [hcase] at herr_len; simp at herr_len
    | cons a l => rfl
  have hesne : (gridLoop oracle outputDir baseName [0, 1, 2, 3]
      (if fsExists fs outputDir then fs else fsMkdir fs outputDir)).errors ≠ [] := by
    intro hnil; rw [hnil] at herr_len; simp at herr_len
  unfold generateStyleReferenceGrid
  rw [hk]
  dsimp only
  rw [hne, hene]
  simp only [Bool.false_eq_true, if_false]
  refine ⟨trivial, ⟨_, rfl, ?_⟩, ⟨_, rfl, hesne, ?_⟩⟩
  · rw [hp, hcount1]; omega
  · rw [he, hcount2]

/-- Witness for C6: one failure among four calls yields success with three
paths and one error entry. -/
theorem generateStyleReferenceGrid_partial_failure_witness :
    ∃ (paths es : List String),
      (generateStyleReferenceGrid (some "key") none { files := [], dirs := [] }
          "out" "ref"
          { resolution := none, description := "d", audience := none, visualStyle := none,
            referenceImageBase64 := none, domainKnowledge := none }
          (fun i => if i = 2 then
              { success := false, imageBase64 := none, error := some "quota" }
            else
              { success := true, imageBase64 := some ("img" ++ toString i), error := none })
          true).1.success = true
      ∧ (generateStyleReferenceGrid (some "key") none { files := [], dirs := [] }
          "out" "ref"
          { resolution := none, description := "d", audience := none, visualStyle := none,
            referenceImageBase64 := none, domainKnowledge := none }
          (fun i => if i = 2 then
              { success := false, imageBase64 := none, error := some "quota" }
            else
              { success := true, imageBase64 := some ("img" ++ toString i), error := none })
          true).1.individualPaths = some paths
      ∧ paths.length = 3 ∧ es.length = 1 := by
  obtain ⟨h1, ⟨paths, hp, hlen⟩, ⟨es, he, hne, helen⟩⟩ :=
    generateStyleReferenceGrid_partial_failure (some "key") none
      { files := [], dirs := [] } "out" "ref"
      { resolution := none, description := "d", audience := none, visualStyle := none,
        referenceImageBase64 := none, domainKnowledge := none }
      (fun i => if i = 2 then
          { success := false, imageBase64 := none, error := some "quota" }
        else
          { success := true, imageBase64 := some ("img" ++ toString i), error := none })
      true (by decide)
      (by intro i hs
          by_cases h2 : i = 2
          · rw [h2] at hs ⊢; exact absurd hs (by decide)
          · simp only [h2, if_false] at hs ⊢
            simp only [jsTruthy]
            exact decide_eq_true (append_ne_empty_left "img" (toString i) (by decide)))
      (by decide) (by decide)
  exact ⟨paths, es, h1, hp, by simpa using hlen, by simpa using helen⟩

/-! ## Claim C1: fallback order -/

theorem tryProvider_fresh_healthy_exec_ok (cache : HealthCache) (now : Nat)
    (envProject : Option String) (exec : ProviderConfig → ExecOutcome)
    (p : ProviderConfig) (request : ImageGenerationRequest)
    (hfresh : cacheGet cache p.name = none)
    (hh : (computeHealth now envProject p).healthy = true)
    (hexec : exec p = ExecOutcome.exit 0 "" "") :
    tryProvider cache now envProject exec p request =
      ({ success := true,
         path := some (jsOrStr request.outputPath ("image_" ++ toString now ++ ".png")),
         provider := some p.name, model := p.model, error := none, fallbackUsed := none },
       cacheSet cache p.name (computeHealth now envProject p)) := by
  unfold tryProvider checkHealth
  rw [hfresh]
  dsimp only
  rw [hexec]
  simp [hh]

theorem tryProvider_fresh_unhealthy (cache : HealthCache) (now : Nat)
    (envProject : Option String) (exec : ProviderConfig → ExecOutcome)
    (p : ProviderConfig) (request : ImageGenerationRequest)
    (hfresh : cacheGet cache p.name = none)
    (hh : (computeHealth now envProject p).healthy = false) :
    tryProvider cache now envProject exec p request =
      ({ success := false, path := none, provider := some p.name, model := none,
         error := some ("Provider " ++ p.name ++ " is unhealthy: "
           ++ ((computeHealth now envProject p).error.getD "undefined")),
         fallbackUsed := none },
       cacheSet cache p.name (computeHealth now envProject p)) := by
  unfold tryProvider checkHealth
  rw [hfresh]
  dsimp only
  simp [hh]

theorem fallbackLoop_cons (now : Nat) (envProject : Option String)
    (exec : ProviderConfig → ExecOutcome) (request : ImageGenerationRequest)
    (p : ProviderConfig) (rest : List ProviderConfig)
    (last : ImageGenerationResult) (cache : HealthCache) :
    fallbackLoop now envProject exec request (p :: rest) last cache =
      (match tryProvider cache now envProject exec p request with
       | (r, cache') =>
         if r.success then ({ r with fallbackUsed := some true }, cache')
         else fallbackLoop now envProject exec request rest r cache') := rfl

theorem fallbackLoop_first_healthy (now : Nat) (envProject : Option String)
    (exec : ProviderConfig → ExecOutcome) (request : ImageGenerationRequest) :
    ∀ (fallbacks : List ProviderConfig) (last : ImageGenerationResult)
      (cache : HealthCache) (q : ProviderConfig),
      (∀ p ∈ fallbacks, cacheGet cache p.name = none) →
      (List.map (fun p => p.name) fallbacks).Nodup →
      (∀ p ∈ fallbacks, exec p = ExecOutcome.exit 0 "" "") →
      List.find? (fun p => (computeHealth now envProject p).healthy) fallbacks = some q →
      (fallbackLoop now envProject exec request fallbacks last cache).1 =
        { success := true,
          path := some (jsOrStr request.outputPath ("image_" ++ toString now ++ ".png")),
          provider := some q.name, model := q.model, error := none,
          fallbackUsed := some true } := by
  intro fallbacks
  induction fallbacks with
  | nil => intro last cache q _ _ _ hq; simp at hq
  | cons p rest ih =>
    intro last cache q hfresh hnodup hexec hq
    by_cases hh : (computeHealth now envProject p).healthy = true
    · rw [show List.find? (fun x => (computeHealth now envProject x).healthy) (p :: rest)
            = some p from List.find?_cons_of_pos _ (by simpa using hh)] at hq
      injection hq with hq
      subst hq
      rw [fallbackLoop_cons,
        tryProvider_fresh_healthy_exec_ok cache now envProject exec p request
          (hfresh p (by simp)) hh (hexec p (by simp))]
      simp
    · have hh' : (computeHealth now envProject p).healthy = false := by
        simpa using hh
      rw [show List.find? (fun x => (computeHealth now envProject x).healthy) (p :: rest)
            = List.find? (fun x => (computeHealth now envProject x).healthy) rest from
          List.find?_cons_of_neg _ (by simpa using hh')] at hq
      rw [fallbackLoop_cons,
        tryProvider_fresh_unhealthy cache now envProject exec p request
          (hfresh p (by simp)) hh']
      dsimp only
      have hnamep : p.name ∉ List.map (fun x => x.name) rest :=
        (List.nodup_cons.mp hnodup).1
      have hfresh' : ∀ p' ∈ rest,
          cacheGet (cacheSet cache p.name (computeHealth now envProject p)) p'.name = none := by
        intro p' hp'
        have hne : p'.name ≠ p.name := by
          intro heq
          exact hnamep (heq ▸ List.mem_map_of_mem (fun x => x.name) hp')
        rw [cacheGet_cacheSet_ne _ _ _ _ hne]
        exact hfresh p' (List.mem_cons_of_mem _ hp')
      exact ih _ _ q hfresh' (List.nodup_cons.mp hnodup).2
        (fun p' hp' => hexec p' (List.mem_cons_of_mem _ hp')) hq

theorem buildFallbackChain_fallbacks (request : ImageGenerationRequest)
    (config : GlobalConfig) (chain : ProviderFallbackChain) (config' : GlobalConfig)
    (h : buildFallbackChain request config = some (chain, config')) :
    (∀ p ∈ chain.fallbacks, p.name ≠ chain.primary.name)
    ∧ chain.fallbacks.Sublist
        (sortByPriority (List.filter (fun p => p.enabled) config.providers)) := by
  unfold buildFallbackChain at h
  dsimp only at h
  split at h
  · next r hr =>
    -- viaRequest took the `some` branch: unpack the request-provider path
    split at hr
    · next htruthy =>
      split at hr
      · next rp hfind =>
        injection hr with hr
        subst hr
        injection h with h
        injection h with hchain hcfg
        subst hchain
        have hrpname : rp.name = request.provider.getD "" := by
          have := List.find?_some hfind
          simpa using this
        constructor
        · intro p hp
          have hmem := List.mem_filter.mp hp
          have hpname : p.name ≠ request.provider.getD "" := by
            simpa using hmem.2
          dsimp only
          split
          · next hmodel =>
            intro heq
            exact hpname (by rw [heq, hrpname])
          · next hmodel =>
            intro heq
            exact hpname (by rw [heq, hrpname])
        · exact List.filter_sublist _
      · exact absurd hr (by simp)
    · exact absurd hr (by simp)
  · next hnone =>
    split at h
    · next primary hfind =>
      injection h with h
      injection h with hchain hcfg
      subst hchain
      constructor
      · intro p hp
        have hmem := List.mem_filter.mp hp
        simpa using hmem.2
      · exact List.filter_sublist _
    · split at h
      · exact absurd h (by simp)
      · next primary rest' heq =>
        injection h with h
        injection h with hchain hcfg
        subst hchain
        constructor
        · intro p hp
          have hmem := List.mem_filter.mp hp
          simpa using hmem.2
        · exact List.filter_sublist _

theorem generateWithFallback_eq_of_chain (request : ImageGenerationRequest)
    (config : GlobalConfig) (cache : HealthCache) (now : Nat)
    (envProject : Option String) (exec : ProviderConfig → ExecOutcome)
    (chain : ProviderFallbackChain) (config' : GlobalConfig)
    (hchain : buildFallbackChain request config = some (chain, config')) :
    generateWithFallback request config cache now envProject exec =
      (match tryProvider cache now envProject exec chain.primary request with
       | (result, cache₁) =>
         if result.success then some (result, config', cache₁)
         else
           match (if config.autoFallback ∧ chain.fallbacks ≠ [] then
                    fallbackLoop now envProject exec request chain.fallbacks result cache₁
                  else (result, cache₁)) with
           | (afterLoop, cache₂) =>
             if afterLoop.success then some (afterLoop, config', cache₂)
             else some ({ success := false, path := none, provider := none, model := none,
                          error := some ("All providers failed. Last error: "
                            ++ (afterLoop.error.getD "undefined")),
                          fallbackUsed := none }, config', cache₂)) := by
  unfold generateWithFallback
  rw [hchain]

/-- Claim C1: with at least two enabled providers and auto-fallback on, when
the primary provider's attempt fails (and the remaining providers' external
executions succeed, isolating the forced primary failure), the returned
result names the first healthy provider of the fallback chain — the next
healthy provider in priority order, ties broken by original list order via
the stable `sortByPriority` — with `fallbackUsed = true`; when the primary
attempt succeeds, that result is returned as is, naming the primary, with
`fallbackUsed` left unset. -/
theorem generateWithFallback_fallback_order (request : ImageGenerationRequest)
    (config : GlobalConfig) (now : Nat) (envProject : Option String)
    (exec : ProviderConfig → ExecOutcome) (chain : ProviderFallbackChain)
    (config' : GlobalConfig)
    (hlen : 2 ≤ (List.filter (fun p => p.enabled) config.providers).length)
    (hauto : config.autoFallback = true)
    (hnodup : (List.map (fun p => p.name)
        (sortByPriority (List.filter (fun p => p.enabled) config.providers))).Nodup)
    (hchain : buildFallbackChain request config = some (chain, config')) :
    ((tryProvider [] now envProject exec chain.primary request).1.success = false →
      (∀ p, p.name ≠ chain.primary.name → exec p = ExecOutcome.exit 0 "" "") →
      ∀ q, List.find? (fun p => (computeHealth now envProject p).healthy) chain.fallbacks
          = some q →
      ∃ cacheF, generateWithFallback request config [] now envProject exec =
        some ({ success := true,
                path := some (jsOrStr request.outputPath ("image_" ++ toString now ++ ".png")),
                provider := some q.name, model := q.model, error := none,
                fallbackUsed := some true }, config', cacheF))
    ∧ ((tryProvider [] now envProject exec chain.primary request).1.success = true →
      ∃ cacheF, generateWithFallback request config [] now envProject exec =
        some ((tryProvider [] now envProject exec chain.primary request).1, config', cacheF)
        ∧ (tryProvider [] now envProject exec chain.primary request).1.provider
            = some chain.primary.name
        ∧ (tryProvider [] now envProject exec chain.primary request).1.fallbackUsed = none) := by
  obtain ⟨hnames, hsub⟩ := buildFallbackChain_fallbacks request config chain config' hchain
  rw [generateWithFallback_eq_of_chain request config [] now envProject exec chain config' hchain]
  cases hT : tryProvider [] now envProject exec chain.primary request with
  | mk result cache₁ =>
    constructor
    · intro hfail hexec q hq
      have hfail' : result.success = false := by simpa using hfail
      have hfb_ne : chain.fallbacks ≠ [] := by
        intro hnil; rw [hnil] at hq; simp at hq
      have hfresh : ∀ p ∈ chain.fallbacks, cacheGet cache₁ p.name = none := by
        intro p hp
        have : cacheGet (tryProvider [] now envProject exec chain.primary request).2 p.name
            = cacheGet [] p.name :=
          tryProvider_cacheGet_other [] now envProject exec chain.primary request
            p.name (hnames p hp)
        rw [hT] at this
        exact this
      have hnodup' : (List.map (fun p => p.name) chain.fallbacks).Nodup :=
        List.Nodup.sublist (List.Sublist.map (fun p => p.name) hsub) hnodup
      have hexec' : ∀ p ∈ chain.fallbacks, exec p = ExecOutcome.exit 0 "" "" :=
        fun p hp => hexec p (hnames p hp)
      have hloop := fallbackLoop_first_healthy now envProject exec request
        chain.fallbacks result cache₁ q hfresh hnodup' hexec' hq
      dsimp only
      rw [if_neg (by simp [hfail'])]
      rw [if_pos (show config.autoFallback = true ∧ ¬ chain.fallbacks = [] from
        ⟨hauto, hfb_ne⟩)]
      cases hL : fallbackLoop now envProject exec request chain.fallbacks result cache₁ with
      | mk afterLoop cache₂ =>
        rw [hL] at hloop
        dsimp only at hloop
        subst hloop
        exact ⟨cache₂, by simp⟩
    · intro hsucc
      have hsucc' : result.success = true := by simpa using hsucc
      dsimp only
      rw [if_pos hsucc']
      have hs := tryProvider_shape [] now envProject exec chain.primary request
      rw [hT] at hs
      exact ⟨cache₁, rfl, hs.2, hs.1⟩

/-- Concrete fixture: the external execution fails for gemini, succeeds for
everything else. -/
def execC : ProviderConfig → ExecOutcome := fun p =>
  if p.name == "gemini" then ExecOutcome.exit 1 "" "quota exceeded"
  else ExecOutcome.exit 0 "" ""

/-- Concrete fixture: the fallback chain `buildFallbackChain` produces for
`reqC` over `cfgC`. -/
def chainC : ProviderFallbackChain := { primary := gemProvC, fallbacks := [orProvC] }

/-- Witness for C1: gemini (priority 1) fails, so the result names
openrouter (priority 2) with `fallbackUsed = true`. -/
theorem generateWithFallback_fallback_order_witness :
    ∃ cacheF, generateWithFallback reqC cfgC [] 5 none execC =
      some ({ success := true,
              path := some (jsOrStr reqC.outputPath ("image_" ++ toString 5 ++ ".png")),
              provider := some orProvC.name, model := orProvC.model, error := none,
              fallbackUsed := some true }, cfgC, cacheF) := by
  obtain ⟨h1, -⟩ := generateWithFallback_fallback_order reqC cfgC 5 none execC
    chainC cfgC (by decide) (by decide) (by decide) (by decide)
  exact h1 (by decide)
    (fun p hp => by
      have hp' : p.name ≠ "gemini" := by simpa [chainC, gemProvC] using hp
      have hbeq : (p.name == "gemini") = false := beq_eq_false_iff_ne.mpr hp'
      simp [execC, hbeq])
    orProvC (by decide)

/-! ## Claim C9 (amended): totality and error strings for non-empty configs -/

theorem sortInsert_length (p : ProviderConfig) (l : List ProviderConfig) :
    (sortInsert p l).length = l.length + 1 := by
  induction l with
  | nil => rfl
  | cons q rest ih =>
    unfold sortInsert
    by_cases h : p.priority ≤ q.priority
    · simp [h]
    · simp [h, ih]

theorem sortByPriority_length (l : List ProviderConfig) :
    (sortByPriority l).length = l.length := by
  induction l with
  | nil => rfl
  | cons p rest ih =>
    unfold sortByPriority
    rw [sortInsert_length, ih, List.length_cons]

theorem buildFallbackChain_ne_none (request : ImageGenerationRequest)
    (config : GlobalConfig)
    (h : List.filter (fun p => p.enabled) config.providers ≠ []) :
    buildFallbackChain request config ≠ none := by
  unfold buildFallbackChain
  dsimp only
  split
  · simp
  · split
    · simp
    · split
      · next heq =>
        exfalso
        apply h
        have hlen := sortByPriority_length (List.filter (fun p => p.enabled) config.providers)
        rw [heq] at hlen
        exact List.length_eq_zero.mp hlen.symm
      · simp

theorem tryProvider_error_nonempty (cache : HealthCache) (now : Nat)
    (envProject : Option String) (exec : ProviderConfig → ExecOutcome)
    (p : ProviderConfig) (request : ImageGenerationRequest)
    (hfail : (tryProvider cache now envProject exec p request).1.success = false) :
    ∃ e, (tryProvider cache now envProject exec p request).1.error = some e ∧ e ≠ "" := by
  have hunhealthy_len : ("Provider " ++ p.name ++ " is unhealthy: ").length ≠ 0 := by
    rw [String.length_append, String.length_append]
    have h9 : 0 < ("Provider " : String).length := by decide
    omega
  unfold tryProvider at hfail ⊢
  cases hch : checkHealth cache now envProject p with
  | mk health cache' =>
    dsimp only at hfail ⊢
    by_cases hh : health.healthy
    · cases he : exec p with
      | exit code stdout stderr =>
        by_cases h0 : code = 0
        · rw [he] at hfail
          simp [h0, hch, hh] at hfail
        · refine ⟨jsOrStr (some stderr) (jsOrStr (some stdout)
              ("Process exited with code " ++ toString code)), by simp [hh, h0], ?_⟩
          apply jsOrStr_ne_empty
          apply jsOrStr_ne_empty
          exact append_ne_empty_left "Process exited with code " _ (by decide)
      | spawnError msg =>
        refine ⟨"Failed to spawn process: " ++ msg, by simp [hh], ?_⟩
        exact append_ne_empty_left "Failed to spawn process: " _ (by decide)
    · refine ⟨"Provider " ++ p.name ++ " is unhealthy: " ++ health.error.getD "undefined",
        by simp [hh], ?_⟩
      exact append_ne_empty_left _ _ hunhealthy_len

theorem fallbackLoop_error_nonempty (now : Nat) (envProject : Option String)
    (exec : ProviderConfig → ExecOutcome) (request : ImageGenerationRequest) :
    ∀ (fallbacks : List ProviderConfig) (last : ImageGenerationResult)
      (cache : HealthCache),
      (last.success = false → ∃ e, last.error = some e ∧ e ≠ "") →
      (fallbackLoop now envProject exec request fallbacks last cache).1.success = false →
      ∃ e, (fallbackLoop now envProject exec request fallbacks last cache).1.error = some e
        ∧ e ≠ "" := by
  intro fallbacks
  induction fallbacks with
  | nil =>
    intro last cache hlast hfail
    exact hlast (by simpa [fallbackLoop] using hfail)
  | cons p rest ih =>
    intro last cache hlast
    rw [fallbackLoop_cons]
    cases hT : tryProvider cache now envProject exec p request with
    | mk r cache' =>
      dsimp only
      by_cases hr : r.success = true
      · intro hfail
        rw [if_pos hr] at hfail
        simp [hr] at hfail
      · have hr' : r.success = false := by simpa using hr
        rw [if_neg (by simp [hr'])]
        apply ih
        intro _
        have hne := tryProvider_error_nonempty cache now envProject exec p request
          (by rw [hT]; exact hr')
        rw [hT] at hne
        exact hne

/-- Claim C9 (amended): whenever the enabled-provider list is non-empty —
including when the default provider is absent or disabled —
`generateWithFallback` returns a result, and every returned failure carries a
non-empty error string. (With an empty enabled list the chain construction
throws instead; see the counterexample.) -/
theorem generateWithFallback_total_error_nonempty (request : ImageGenerationRequest)
    (config : GlobalConfig) (cache : HealthCache) (now : Nat)
    (envProject : Option String) (exec : ProviderConfig → ExecOutcome)
    (h : List.filter (fun p => p.enabled) config.providers ≠ []) :
    ∃ r config' cacheF,
      generateWithFallback request config cache now envProject exec =
        some (r, config', cacheF)
      ∧ (r.success = false → ∃ e, r.error = some e ∧ e ≠ "") := by
  obtain ⟨pair, hpair⟩ : ∃ pair, buildFallbackChain request config = some pair := by
    cases hb : buildFallbackChain request config with
    | none => exact absurd hb (buildFallbackChain_ne_none request config h)
    | some pair => exact ⟨pair, rfl⟩
  obtain ⟨chain, config'⟩ := pair
  rw [generateWithFallback_eq_of_chain request config cache now envProject exec
    chain config' hpair]
  cases hT : tryProvider cache now envProject exec chain.primary request with
  | mk result cache₁ =>
    have herr_last : result.success = false → ∃ e, result.error = some e ∧ e ≠ "" := by
      intro hres'
      have hne := tryProvider_error_nonempty cache now envProject exec chain.primary request
        (by rw [hT]; exact hres')
      rw [hT] at hne
      exact hne
    by_cases hres : result.success = true
    · exact ⟨result, config', cache₁, by simp [hres], fun hcontra => by
        rw [hres] at hcontra; cases hcontra⟩
    · have hres' : result.success = false := by simpa using hres
      dsimp only
      rw [if_neg (by simp [hres'])]
      cases hI : (if config.autoFallback ∧ chain.fallbacks ≠ [] then
          fallbackLoop now envProject exec request chain.fallbacks result cache₁
        else (result, cache₁)) with
      | mk afterLoop cache₂ =>
        have hafter : afterLoop.success = false →
            ∃ e, afterLoop.error = some e ∧ e ≠ "" := by
          by_cases hc : config.autoFallback = true ∧ ¬ chain.fallbacks = []
          · rw [if_pos hc] at hI
            intro hs
            have hne := fallbackLoop_error_nonempty now envProject exec request
              chain.fallbacks result cache₁ herr_last
            rw [hI] at hne
            exact hne hs
          · rw [if_neg hc] at hI
            injection hI with h1 h2
            subst h1
            exact herr_last
        by_cases hals : afterLoop.success = true
        · rw [if_pos hals]
          exact ⟨afterLoop, config', cache₂, rfl, fun hcontra => by
            rw [hals] at hcontra; cases hcontra⟩
        · have hals' : afterLoop.success = false := by simpa using hals
          rw [if_neg (by simp [hals'])]
          refine ⟨_, config', cache₂, rfl, fun _ => ⟨_, rfl, ?_⟩⟩
          exact append_ne_empty_left "All providers failed. Last error: " _ (by decide)

/-- Witness for the amended C9 at a concrete two-provider configuration. -/
theorem generateWithFallback_total_error_nonempty_witness :
    ∃ r config' cacheF,
      generateWithFallback reqC cfgC [] 5 none execC = some (r, config', cacheF)
      ∧ (r.success = false → ∃ e, r.error = some e ∧ e ≠ "") :=
  generateWithFallback_total_error_nonempty reqC cfgC [] 5 none execC (by decide)

/-! ## Claim C10: active-reference bookkeeping -/

theorem fsExists_fsWrite_mono (fs : FS) (q c p : String)
    (h : fsExists fs p = true) : fsExists (fsWrite fs q c) p = true := by
  unfold fsExists at h ⊢
  unfold fsWrite
  simp only [List.any_eq_true, Bool.or_eq_true] at h ⊢
  rcases h with ⟨e, he, hkey⟩ | h
  · by_cases hpq : p = q
    · exact Or.inl ⟨(q, c), by simp, by simp [hpq]⟩
    · refine Or.inl ⟨e, ?_, hkey⟩
      simp only [List.mem_cons]
      right
      rw [List.mem_filter]
      refine ⟨he, ?_⟩
      have hek : e.1 = p := by simpa using hkey
      simp [hek, hpq]
  · exact Or.inr h

theorem fsExists_fsMkdir_mono (fs : FS) (d p : String)
    (h : fsExists fs p = true) : fsExists (fsMkdir fs d) p = true := by
  unfold fsExists at h ⊢
  unfold fsMkdir
  simp only [List.any_eq_true, Bool.or_eq_true] at h ⊢
  rcases h with h | ⟨x, hx, hkey⟩
  · exact Or.inl h
  · exact Or.inr ⟨x, List.mem_cons_of_mem _ hx, hkey⟩

theorem fsExists_fsWrite_self (fs : FS) (p c : String) :
    fsExists (fsWrite fs p c) p = true := by
  unfold fsExists fsWrite
  simp

theorem fsRead_fsWrite_self (fs : FS) (p c : String) :
    fsRead (fsWrite fs p c) p = some c := by
  unfold fsRead fsWrite
  simp

theorem gridLoop_fs_exists_mono (oracle : Nat → SingleResult)
    (outputDir baseName : String) :
    ∀ (idxs : List Nat) (fs : FS) (p : String), fsExists fs p = true →
      fsExists (gridLoop oracle outputDir baseName idxs fs).fs p = true := by
  intro idxs
  induction idxs with
  | nil => intro fs p h; simpa [gridLoop] using h
  | cons i rest ih =>
    intro fs p h
    rw [gridLoop_cons]
    by_cases hc : ((oracle i).success && jsTruthy (oracle i).imageBase64) = true
    · rw [if_pos hc]
      dsimp only
      exact ih _ p (fsExists_fsWrite_mono _ _ _ _ h)
    · rw [if_neg hc]
      dsimp only
      exact ih _ p h

theorem gridLoop_fs_of_no_success (oracle : Nat → SingleResult)
    (outputDir baseName : String) :
    ∀ (idxs : List Nat) (fs : FS),
      (gridLoop oracle outputDir baseName idxs fs).individualImages = [] →
      (gridLoop oracle outputDir baseName idxs fs).fs = fs := by
  intro idxs
  induction idxs with
  | nil => intro fs _; rfl
  | cons i rest ih =>
    intro fs hnil
    rw [gridLoop_cons] at hnil ⊢
    by_cases hc : ((oracle i).success && jsTruthy (oracle i).imageBase64) = true
    · rw [if_pos hc] at hnil
      dsimp only at hnil
      cases hnil
    · rw [if_neg hc] at hnil ⊢
      dsimp only at hnil ⊢
      exact ih fs hnil

theorem generateStyleReferenceGrid_success_facts (envGoogle envGemini : Option String)
    (fs : FS) (outputDir baseName : String) (options : GenerationOptions)
    (oracle : Nat → SingleResult) (sharpAvailable : Bool)
    (hsucc : (generateStyleReferenceGrid envGoogle envGemini fs outputDir baseName
      options oracle sharpAvailable).1.success = true) :
    (generateStyleReferenceGrid envGoogle envGemini fs outputDir baseName options
        oracle sharpAvailable).1.gridPath =
      some (pathJoin outputDir (baseName ++ ".png"))
    ∧ fsExists (generateStyleReferenceGrid envGoogle envGemini fs outputDir baseName
        options oracle sharpAvailable).2.1 (pathJoin outputDir (baseName ++ ".png")) = true
    ∧ (∀ p, fsExists fs p = true →
        fsExists (generateStyleReferenceGrid envGoogle envGemini fs outputDir baseName
          options oracle sharpAvailable).2.1 p = true) := by
  unfold generateStyleReferenceGrid at hsucc ⊢
  cases hk : getApiKey envGoogle envGemini with
  | none => rw [hk] at hsucc; cases hsucc
  | some k =>
    simp only [hk] at hsucc ⊢
    by_cases hempty : (gridLoop oracle outputDir baseName [0, 1, 2, 3]
        (if fsExists fs outputDir = true then fs else fsMkdir fs outputDir)).individualImages.isEmpty = true
    · rw [if_pos hempty] at hsucc
      cases hsucc
    · rw [if_neg hempty] at hsucc ⊢
      refine ⟨rfl, fsExists_fsWrite_self _ _ _, ?_⟩
      intro p hp
      apply fsExists_fsWrite_mono
      apply gridLoop_fs_exists_mono
      by_cases hex : fsExists fs outputDir = true
      · rw [if_pos hex]; exact hp
      · rw [if_neg hex]; exact fsExists_fsMkdir_mono _ _ _ hp

theorem generateStyleReferenceGrid_failure_files (envGoogle envGemini : Option String)
    (fs : FS) (outputDir baseName : String) (options : GenerationOptions)
    (oracle : Nat → SingleResult) (sharpAvailable : Bool)
    (hfail : (generateStyleReferenceGrid envGoogle envGemini fs outputDir baseName
      options oracle sharpAvailable).1.success = false) :
    ((generateStyleReferenceGrid envGoogle envGemini fs outputDir baseName options
        oracle sharpAvailable).2.1).files = fs.files := by
  unfold generateStyleReferenceGrid at hfail ⊢
  cases hk : getApiKey envGoogle envGemini with
  | none => rfl
  | some k =>
    simp only [hk] at hfail ⊢
    by_cases hempty : (gridLoop oracle outputDir baseName [0, 1, 2, 3]
        (if fsExists fs outputDir = true then fs else fsMkdir fs outputDir)).individualImages.isEmpty = true
    · rw [if_pos hempty] at hfail ⊢
      dsimp only
      have hnil : (gridLoop oracle outputDir baseName [0, 1, 2, 3]
          (if fsExists fs outputDir = true then fs else fsMkdir fs outputDir)).individualImages = [] := by
        simpa [List.isEmpty_iff] using hempty
      rw [gridLoop_fs_of_no_success oracle outputDir baseName [0, 1, 2, 3] _ hnil]
      by_cases hex : fsExists fs outputDir = true
      · rw [if_pos hex]
      · rw [if_neg hex]; rfl
    · rw [if_neg hempty] at hfail
      cases hfail

theorem res_success_false_of_and (res : GenerationResult)
    (himp : res.success = true → res.gridPath.isSome = true)
    (hcond : (res.success && res.gridPath.isSome) = false) : res.success = false := by
  rcases Bool.eq_false_or_eq_true res.success with h | h
  · rw [h, himp h] at hcond
    cases hcond
  · exact h

theorem setActiveReference_of_grid (templatesDir templateName : String) (fsG : FS)
    (filename : String)
    (hexT : fsExists fsG (pathJoin templatesDir templateName) = true)
    (hexF : fsExists fsG
      (pathJoin (pathJoin (pathJoin templatesDir templateName) "style-references")
        filename) = true) :
    setActiveReference templatesDir fsG templateName filename =
      some (fsWrite fsG
        (pathJoin (pathJoin templatesDir templateName) ".active-reference") filename) := by
  unfold setActiveReference getTemplateDir
  rw [if_pos hexT]
  dsimp only
  rw [if_pos hexF]

/-- Claim C10 (amended): when `generateStyleReference` succeeds for a template
with `options.name = N`, it writes the template's `.active-reference` marker
so that a subsequent `getActiveReference` returns the trimmed `N.png` — equal
to `N.png` whenever the filename carries no leading or trailing whitespace;
when generation fails, no file content changes, so in particular the
`.active-reference` marker is untouched. -/
theorem generateStyleReference_sets_active_reference (templatesDir : String)
    (fs : FS) (envGoogle envGemini : Option String) (oracle : Nat → SingleResult)
    (sharpAvailable : Bool) (templateName : String)
    (options : GenerateReferenceOptions) (r : SRResult) (fs' : FS)
    (hrun : generateStyleReference templatesDir fs envGoogle envGemini oracle
      sharpAvailable templateName options = some (r, fs'))
    (htrim : jsTrim (options.name ++ ".png") = options.name ++ ".png") :
    (r.success = true →
      getActiveReference templatesDir fs' templateName =
        some (some (options.name ++ ".png")))
    ∧ (r.success = false → fs'.files = fs.files) := by
  have hpngne : ¬ options.name ++ ".png" = "" := by
    intro h0
    have hl := congrArg String.length h0
    rw [String.length_append] at hl
    simp only [String.length_empty] at hl
    have hp : (0:Nat) < (".png" : String).length := by decide
    omega
  unfold generateStyleReference at hrun
  dsimp only at hrun
  split at hrun
  · injection hrun with h1
    injection h1 with hr hfs
    subst hr
    subst hfs
    constructor
    · intro hcontra
      exact absurd hcontra (by simp)
    · intro _
      rfl
  · split at hrun
    · exact absurd hrun (by simp)
    · next templateDir htd =>
      unfold getTemplateDir at htd
      by_cases hex : fsExists fs (pathJoin templatesDir templateName) = true
      · rw [if_pos hex] at htd
        injection htd with htd
        subst htd
        split at hrun
        · next hrd =>
          split at hrun
          · next hcond =>
            have hc := hcond
            rw [Bool.and_eq_true] at hc
            have hsuccG := hc.1
            have hfacts := generateStyleReferenceGrid_success_facts _ _ _ _ _ _ _ _ hsuccG
            have hexG := hfacts.2.2 _ hex
            have hsetEq := setActiveReference_of_grid templatesDir templateName _
              (options.name ++ ".png") hexG hfacts.2.1
            rw [hsetEq] at hrun
            dsimp only at hrun
            injection hrun with h1
            injection h1 with hr hfs
            subst hr
            subst hfs
            constructor
            · intro _
              unfold getActiveReference getTemplateDir
              rw [if_pos (fsExists_fsWrite_mono _ _ _ _ hexG)]
              dsimp only
              rw [fsRead_fsWrite_self]
              dsimp only
              rw [htrim]
              rw [if_neg hpngne]
            · intro hcontra
              exact absurd hcontra (by simp)
          · next hcond =>
            have hcondF := Bool.eq_false_iff.mpr hcond
            have hGfail := res_success_false_of_and _
              (fun hs => by
                rw [(generateStyleReferenceGrid_success_facts _ _ _ _ _ _ _ _ hs).1]
                rfl) hcondF
            have hfiles := generateStyleReferenceGrid_failure_files _ _ _ _ _ _ _ _ hGfail
            injection hrun with h1
            injection h1 with hr hfs
            subst hr
            subst hfs
            constructor
            · intro hcontra
              exact absurd hcontra (by simp)
            · intro _
              exact hfiles
        · next hrd =>
          split at hrun
          · next hcond =>
            have hc := hcond
            rw [Bool.and_eq_true] at hc
            have hsuccG := hc.1
            have hfacts := generateStyleReferenceGrid_success_facts _ _ _ _ _ _ _ _ hsuccG
            have hexG := hfacts.2.2 _ (fsExists_fsMkdir_mono _ _ _ hex)
            have hsetEq := setActiveReference_of_grid templatesDir templateName _
              (options.name ++ ".png") hexG hfacts.2.1
            rw [hsetEq] at hrun
            dsimp only at hrun
            injection hrun with h1
            injection h1 with hr hfs
            subst hr
            subst hfs
            constructor
            · intro _
              unfold getActiveReference getTemplateDir
              rw [if_pos (fsExists_fsWrite_mono _ _ _ _ hexG)]
              dsimp only
              rw [fsRead_fsWrite_self]
              dsimp only
              rw [htrim]
              rw [if_neg hpngne]
            · intro hcontra
              exact absurd hcontra (by simp)
          · next hcond =>
            have hcondF := Bool.eq_false_iff.mpr hcond
            have hGfail := res_success_false_of_and _
              (fun hs => by
                rw [(generateStyleReferenceGrid_success_facts _ _ _ _ _ _ _ _ hs).1]
                rfl) hcondF
            have hfiles := generateStyleReferenceGrid_failure_files _ _ _ _ _ _ _ _ hGfail
            injection hrun with h1
            injection h1 with hr hfs
            subst hr
            subst hfs
            constructor
            · intro hcontra
              exact absurd hcontra (by simp)
            · intro _
              exact hfiles
      · rw [if_neg hex] at htd
        exact absurd htd (by simp)

/-- Concrete fixture: a template directory `templates/tpl` on an otherwise
empty filesystem. -/
def fsT : FS := { files := [], dirs := ["templates/tpl"] }

/-- Concrete fixture: every single-image call succeeds with the same bytes. -/
def oracleT : Nat → SingleResult := fun _ =>
  { success := true, imageBase64 := some "IMG", error := none }

/-- Concrete fixture: generation options named `" a"` — a name with leading
whitespace. -/
def optsT : GenerateReferenceOptions :=
  { resolution := none, name := " a", description := none, audience := none,
    visualStyle := none, refImages := none }

/-- Concrete fixture: generation options with the plain name `"ref"`. -/
def optsW : GenerateReferenceOptions :=
  { resolution := none, name := "ref", description := none, audience := none,
    visualStyle := none, refImages := none }

/-- Counterexample to claim C10 as stated: for `options.name = " a"` the
generation succeeds and sets the active reference file to `" a.png"`, but
`getActiveReference` trims what it reads and returns `"a.png"`, which differs
from `N ++ ".png"`. -/
theorem generateStyleReference_trim_counterexample :
    (Option.map (fun x => x.1.success)
      (generateStyleReference "templates" fsT (some "KEY") none oracleT true
        "tpl" optsT)) = some true
    ∧ (Option.bind
        (generateStyleReference "templates" fsT (some "KEY") none oracleT true
          "tpl" optsT)
        (fun x => getActiveReference "templates" x.2 "tpl")) = some (some "a.png")
    ∧ ¬ "a.png" = optsT.name ++ ".png" := by
  refine ⟨by decide, by decide, by decide⟩

/-- Witness for the amended C10: with the whitespace-free name `"ref"` the
run succeeds and `getActiveReference` afterwards returns `"ref.png"`. -/
theorem generateStyleReference_sets_active_reference_witness :
    ∃ r fs', generateStyleReference "templates" fsT (some "KEY") none oracleT true
        "tpl" optsW = some (r, fs')
      ∧ (r.success = true →
          getActiveReference "templates" fs' "tpl" = some (some (optsW.name ++ ".png")))
      ∧ (r.success = false → fs'.files = fsT.files) := by
  cases hrun : generateStyleReference "templates" fsT (some "KEY") none oracleT true
      "tpl" optsW with
  | none => exact absurd hrun (by decide)
  | some pair =>
    obtain ⟨r, fs'⟩ := pair
    obtain ⟨h1, h2⟩ := generateStyleReference_sets_active_reference "templates" fsT
      (some "KEY") none oracleT true "tpl" optsW r fs' hrun (by decide)
    exact ⟨r, fs', rfl, h1, h2⟩
